import Mathlib

/-!
# Verification of the dependency-injection core of django-autowired

A shallow embedding, in Lean 4, of the dependency-graph construction and
request-resolution engine of the repository: field specifications
(pydantic `ModelField`), dependency nodes (`Dependant`), tree flattening,
body aggregation (`get_body_field`), the request converters
(`RequestConverter.to_args` / `to_body`), the registration pipeline
(`ViewRoute.__init__`), and the per-request wrapper built by the
`Autowired` decorator.

Python conventions used throughout the embedding:
* exceptions are modelled with `Except PyErr`;
* Python `None` is `PyValue.none`;
* the pydantic sentinel `Required` (a.k.a. `...`) is modelled as the
  absence of a default (`Option`);
* mutation of objects is modelled by functional update.
-/

set_option maxHeartbeats 1000000

/-- Python-level values flowing through the binding engine: JSON-like data,
    plus the Django `MultiValueDict` used for form bodies. -/
inductive PyValue where
  | none
  | bool (b : Bool)
  | int (n : Int)
  | str (s : String)
  | listV (xs : List PyValue)
  | dictV (xs : List (String × PyValue))
  | multiDict (xs : List (String × List PyValue))

/-- `v is None` in Python, as a boolean test. -/
def PyValue.isNoneV : PyValue → Bool
  | .none => true
  | _ => false

/-- Python truthiness (`bool(x)`): `None`, `0`, `""` and empty containers
    are falsy. -/
def pyTruthy : PyValue → Bool
  | .none => false
  | .bool b => b
  | .int n => n != 0
  | .str s => s != ""
  | .listV xs => !xs.isEmpty
  | .dictV xs => !xs.isEmpty
  | .multiDict xs => !xs.isEmpty

/-- A Python `dict` with string keys, keeping insertion order. -/
abbrev PyDict := List (String × PyValue)

/-- `d.get(k)`: `None` when the key is absent is represented by `Option.none`. -/
def dictGet (m : PyDict) (k : String) : Option PyValue :=
  (m.find? (fun p => p.1 == k)).map (fun p => p.2)

/-- `d[k] = v`: replace in place when the key exists, else append
    (CPython dicts keep the original insertion position on re-assignment). -/
def dictSet (m : PyDict) (k : String) (v : PyValue) : PyDict :=
  if m.any (fun p => p.1 == k) then
    m.map (fun p => if p.1 == k then (k, v) else p)
  else m ++ [(k, v)]

/-- A multi-valued mapping (Django `QueryDict` / `MultiValueDict`): each key
    holds the ordered list of values received for it. -/
abbrev MultiMap := List (String × List PyValue)

/-- `MultiValueDict.getlist(key)`: the full value list, `[]` when absent. -/
def multiGetList (m : MultiMap) (k : String) : List PyValue :=
  ((m.find? (fun p => p.1 == k)).map (fun p => p.2)).getD []

/-- `MultiValueDict.get(key)` (also `QueryDict.get`): the last value stored
    under the key, `None` when the key is absent, `[]` when the stored list
    is empty (Django's `__getitem__` returns `[]` on the `IndexError` path). -/
def multiGetLast (m : MultiMap) (k : String) : PyValue :=
  match m.find? (fun p => p.1 == k) with
  | Option.none => .none
  | Option.some p => p.2.getLastD (.listV [])

/-- `MultiValueDict.update(other)`: Django extends the per-key value lists
    rather than replacing them. -/
def mvUpdate (a b : MultiMap) : MultiMap :=
  b.foldl (fun acc kv =>
    if acc.any (fun p => p.1 == kv.1) then
      acc.map (fun p => if p.1 == kv.1 then (p.1, p.2 ++ kv.2) else p)
    else acc ++ [kv]) a

/-- One component of a pydantic error location path, e.g. `("body", 17)`
    mixes strings and integers. -/
inductive LocKey where
  | s (v : String)
  | n (v : Nat)
deriving DecidableEq

/-- A pydantic error location tuple such as `("query", "page")`. -/
abbrev Loc := List LocKey

/-- The kinds of leaf errors produced during binding: pydantic
    `MissingError`, pydantic value/coercion errors, and the stdlib
    `json.JSONDecodeError` (message, offset `pos`, document `doc`). -/
inductive ErrKind where
  | missing
  | valueError (msg : String)
  | jsonDecode (msg : String) (pos : Nat) (doc : String)
deriving DecidableEq

/-- pydantic `ErrorWrapper`: an exception tagged with its location path. -/
structure ErrorWrapper where
  exc : ErrKind
  loc : Loc
deriving DecidableEq

/-- Python exceptions raised by the embedded code. -/
inductive PyErr where
  | typeError (msg : String)
  | attributeError (msg : String)
  | assertionError (msg : String)
  | exception (msg : String)
  | jsonDecodeError (msg : String) (pos : Nat) (doc : String)
  | requestValidation (errors : List ErrorWrapper) (body : Option PyValue)
  | validation (errors : List ErrorWrapper) (modelName : String)
  | apiException (statusCode : Nat) (detail : String)

/-- The validator pydantic generates for a field, as data (type coercion plus
    the numeric constraints used by the repository's tests). `runChecker`
    gives its semantics. -/
inductive Checker where
  | anyOk
  | intC (gt ge lt le : Option Int)
  | strC
  | objWith (requiredKeys : List String)
  | rejectAll (msg : String)
deriving DecidableEq

/-- Decimal-digit accumulation for the `int()` model. -/
def digitsToNatAux : List Char → Nat → Option Nat
  | [], acc => Option.some acc
  | c :: cs, acc =>
    if c.isDigit then digitsToNatAux cs (acc * 10 + (c.toNat - 48))
    else Option.none

/-- Python `int(s)` on a string: an optional sign followed by at least one
    decimal digit. -/
def pyStrToInt (s : String) : Option Int :=
  match s.toList with
  | [] => Option.none
  | '-' :: cs =>
    match cs with
    | [] => Option.none
    | _ => (digitsToNatAux cs 0).map (fun n => -(n : Int))
  | cs => (digitsToNatAux cs 0).map (fun n => (n : Int))

/-- pydantic `int` coercion: ints, bools and integer-shaped strings coerce. -/
def pyToIntOpt : PyValue → Option Int
  | .int n => Option.some n
  | .bool b => Option.some (if b then 1 else 0)
  | .str s => pyStrToInt s
  | _ => Option.none

/-- Check the numeric constraints `gt/ge/lt/le` against a coerced integer. -/
def boundsOk (n : Int) (gt ge lt le : Option Int) : Bool :=
  (match gt with | Option.some b => decide (b < n) | Option.none => true) &&
  (match ge with | Option.some b => decide (b ≤ n) | Option.none => true) &&
  (match lt with | Option.some b => decide (n < b) | Option.none => true) &&
  (match le with | Option.some b => decide (n ≤ b) | Option.none => true)

/-- Run a field validator: returns the coerced value or the list of leaf
    errors (pydantic reports coercion and constraint violations as value
    errors). -/
def runChecker : Checker → PyValue → Except (List ErrKind) PyValue
  | .anyOk, v => .ok v
  | .intC gt ge lt le, v =>
    match pyToIntOpt v with
    | Option.none => .error [.valueError "value is not a valid integer"]
    | Option.some n =>
      if boundsOk n gt ge lt le then .ok (.int n)
      else .error [.valueError "constraint violation"]
  | .strC, v =>
    match v with
    | .str s => .ok (.str s)
    | .int n => .error [.valueError ("str type expected: " ++ toString n)]
    | _ => .error [.valueError "str type expected"]
  | .objWith keys, v =>
    match v with
    | .dictV xs =>
      if keys.all (fun k => xs.any (fun p => p.1 == k)) then .ok (.dictV xs)
      else .error [.valueError "field required in object"]
    | _ => .error [.valueError "value is not a valid dict"]
  | .rejectAll msg, _ => .error [.valueError msg]

/-- Modelled from the spec: the repository's `params` module (imported as
    `django_autowired.params` by every core file) is not present under the
    source tree; only its callers are. Per the spec, values may arrive from
    one of five locations, and the non-body locations are carried by a
    `ParamTypes` enumeration whose `.value` is the lowercase location name
    used in error tuples. -/
inductive ParamTypes where
  | path
  | query
  | header
  | cookie
deriving DecidableEq

/-- The string `ParamTypes.<x>.value` used in error location tuples. -/
def ParamTypes.value : ParamTypes → String
  | .path => "path"
  | .query => "query"
  | .header => "header"
  | .cookie => "cookie"

/-- Modelled from the spec: the Python class of a field-declaration marker
    object. `Path/Query/Header/Cookie` subclass `Param`, and `Form/File`
    subclass `Body` (file-bearing fields force multipart, form fields force
    form-encoding, otherwise JSON), with `plain` for a bare pydantic
    `FieldInfo`. -/
inductive FIClass where
  | plain
  | paramBase
  | path
  | query
  | header
  | cookie
  | body
  | form
  | file
deriving DecidableEq

/-- `isinstance(x, params.Param)` on a marker of class `c`. -/
def isParamCls : FIClass → Bool
  | .paramBase | .path | .query | .header | .cookie => true
  | _ => false

/-- `isinstance(x, params.Body)` on a marker of class `c`
    (`Form` and `File` subclass `Body`). -/
def isBodyCls : FIClass → Bool
  | .body | .form | .file => true
  | _ => false

/-- Modelled from the spec: the state of a field-declaration marker
    (pydantic `FieldInfo` or one of the `params` subclasses). `default` is
    `Option.none` for the pydantic `Required` sentinel; `embed` and
    `media_type` are the body-marker attributes the core reads and writes;
    `convert_underscores` is the header-marker attribute driving
    underscore-to-dash alias derivation. -/
structure FieldInfo where
  cls : FIClass
  in_ : Option ParamTypes
  default : Option PyValue
  alias_ : Option String
  convertUnderscores : Bool
  embed : Bool
  mediaType : String

/-- Modelled from the spec: the location class attribute `in_` carried by
    each `Param` subclass. -/
def clsIn : FIClass → Option ParamTypes
  | .path => Option.some .path
  | .query => Option.some .query
  | .header => Option.some .header
  | .cookie => Option.some .cookie
  | _ => Option.none

/-- Modelled from the spec: construct a marker of class `c` with a default
    value, as the code does with `default_field_info_class(default_value)`
    and `Body(field_info.default)`. Headers request underscore conversion by
    default; body markers carry the default JSON media type. -/
def mkMarker (c : FIClass) (default : Option PyValue) : FieldInfo :=
  { cls := c
    in_ := clsIn c
    default := default
    alias_ := Option.none
    convertUnderscores := c == FIClass.header
    embed := false
    mediaType := if c == FIClass.form then "application/x-www-form-urlencoded"
                 else if c == FIClass.file then "multipart/form-data"
                 else "application/json" }

/-- pydantic field shapes: `SHAPE_SINGLETON` and the members of the
    module-level `SEQUENCE_SHAPES` set. -/
inductive Shape where
  | singleton
  | shapeList
  | shapeSet
  | shapeTuple
  | shapeSequence
  | shapeTupleEllipsis
deriving DecidableEq

/-- `field.shape in SEQUENCE_SHAPES`. -/
def inSequenceShapes : Shape → Bool
  | .singleton => false
  | _ => true

/-- The Python class stored in pydantic `field.type_`, as far as the
    `lenient_issubclass` tests in the source distinguish it. A synthesized
    `create_model` result is `createdModel`. -/
inductive TypeTag where
  | intT
  | strT
  | boolT
  | anyT
  | baseModel (name : String)
  | createdModel (name : String)
  | listCls
  | setCls
  | tupleCls
  | dictCls
deriving DecidableEq

/-- `lenient_issubclass(type_, BaseModel)`: user models and `create_model`
    results are `BaseModel` subclasses. -/
def isBaseModelType : TypeTag → Bool
  | .baseModel _ | .createdModel _ => true
  | _ => false

/-- `lenient_issubclass(type_, SEQUENCE_TYPES + (dict,))`. -/
def isSeqOrDictType : TypeTag → Bool
  | .listCls | .setCls | .tupleCls | .dictCls => true
  | _ => false

/-- `lenient_issubclass(type_, SEQUENCE_TYPES)` /
    `field.type_ in SEQUENCE_TYPES`. -/
def isSequenceType : TypeTag → Bool
  | .listCls | .setCls | .tupleCls => true
  | _ => false

/-- pydantic `ModelField`, restricted to the attributes the source reads:
    `name`, `alias`, `required`, `default`, `shape`, `type_`, `sub_fields`,
    `field_info`, and the validator (`field.validate`) as a `Checker`.
    `sub_fields` is the pydantic decomposition of parametrized types (e.g.
    the element field of `List[int]`, the arms of a `Union`). -/
inductive ModelField where
  | mk (name : String) (alias_ : String) (required : Bool) (default : PyValue)
       (shape : Shape) (type_ : TypeTag) (subFields : List ModelField)
       (fieldInfo : FieldInfo) (checker : Checker)

def ModelField.name : ModelField → String
  | .mk n _ _ _ _ _ _ _ _ => n

def ModelField.alias_ : ModelField → String
  | .mk _ a _ _ _ _ _ _ _ => a

def ModelField.required : ModelField → Bool
  | .mk _ _ r _ _ _ _ _ _ => r

def ModelField.default : ModelField → PyValue
  | .mk _ _ _ d _ _ _ _ _ => d

def ModelField.shape : ModelField → Shape
  | .mk _ _ _ _ s _ _ _ _ => s

def ModelField.type_ : ModelField → TypeTag
  | .mk _ _ _ _ _ t _ _ _ => t

def ModelField.subFields : ModelField → List ModelField
  | .mk _ _ _ _ _ _ sf _ _ => sf

def ModelField.fieldInfo : ModelField → FieldInfo
  | .mk _ _ _ _ _ _ _ fi _ => fi

def ModelField.checker : ModelField → Checker
  | .mk _ _ _ _ _ _ _ _ c => c

/-- `setattr(field.field_info, "embed", True)`, as a functional update. -/
def ModelField.setInfoEmbed : ModelField → Bool → ModelField
  | .mk n a r d s t sf fi c, e => .mk n a r d s t sf { fi with embed := e } c

mutual

/-- `DependantUtils.is_scalar_field`: false when the shape is not
    `SHAPE_SINGLETON`, the type is a `BaseModel` subclass, the type is a
    raw sequence/dict class, or the field carries a `Body` marker; otherwise
    every sub-field must itself be scalar. -/
def is_scalar_field (f : ModelField) : Bool :=
  match f with
  | .mk _ _ _ _ shape t subFields fieldInfo _ =>
    if shape != Shape.singleton
        || isBaseModelType t
        || isSeqOrDictType t
        || isBodyCls fieldInfo.cls then
      false
    else is_scalar_field_list subFields

/-- `all(is_scalar_field(f) for f in field.sub_fields)` (vacuously true when
    there are no sub-fields, as in the source's falsy test). -/
def is_scalar_field_list : List ModelField → Bool
  | [] => true
  | f :: fs => is_scalar_field f && is_scalar_field_list fs

end

/-- `DependantUtils.is_scalar_sequence_field`: a sequence-shaped field whose
    type is not a `BaseModel` and whose sub-fields are all scalar, or a field
    whose raw type is one of the sequence classes. -/
def is_scalar_sequence_field (f : ModelField) : Bool :=
  if inSequenceShapes f.shape && !isBaseModelType f.type_ then
    is_scalar_field_list f.subFields
  else if isSequenceType f.type_ then true
  else false

/-- The pydantic-derived view of a resolved annotation: everything
    `ModelField(type_=annotation, ...)` computes from the type alone. -/
structure AnnData where
  shape : Shape
  type_ : TypeTag
  subFields : List ModelField
  checker : Checker

/-- The resolved annotation for an unannotated parameter (`Any`). -/
def anyAnn : AnnData :=
  { shape := .singleton, type_ := .anyT, subFields := [], checker := .anyOk }

/-- `DependantUtils.create_model_field`: assemble a pydantic `ModelField`.
    The `try/except RuntimeError` re-raise cannot fire for the type views
    representable here, so the embedding is total. `alias=None` falls back
    to the field name, as pydantic does. -/
def create_model_field (name : String) (type_ : AnnData) (default : PyValue)
    (required : Bool) (fieldInfo : FieldInfo) (alias_ : Option String) : ModelField :=
  .mk name (alias_.getD name) required default type_.shape type_.type_
    type_.subFields fieldInfo type_.checker

mutual

/-- The default slot of a declared parameter: `inspect.Parameter.empty`, a
    plain Python value, a field-declaration marker (`FieldInfo` subclass),
    or a `params.Depends` marker whose optional payload is the dependency
    callable. -/
inductive DefaultVal where
  | empty
  | val (v : PyValue)
  | info (fi : FieldInfo)
  | depends (dependency : Option Callable)

/-- An `inspect.Parameter` after typed-signature resolution: its name, its
    default, the pydantic view of its resolved annotation (with the
    marker's constraints merged, as `get_annotation_from_field_info` does),
    and, when the annotation itself is a callable usable as a dependency,
    that callable. -/
inductive SigParam where
  | mk (name : String) (default : DefaultVal) (ann : AnnData)
       (annAsCallable : Option Callable)

/-- A Python callable as the signature analyzer sees it: its `repr` (used
    as the route's unique id) and its ordered declared parameters. -/
inductive Callable where
  | mk (reprStr : String) (params : List SigParam)

end

def SigParam.name : SigParam → String
  | .mk n _ _ _ => n

def SigParam.default : SigParam → DefaultVal
  | .mk _ d _ _ => d

def SigParam.ann : SigParam → AnnData
  | .mk _ _ a _ => a

def SigParam.annAsCallable : SigParam → Option Callable
  | .mk _ _ _ c => c

def Callable.reprStr : Callable → String
  | .mk r _ => r

def Callable.params : Callable → List SigParam
  | .mk _ ps => ps

/-- Replace a field's `field_info` (`field.field_info = ...`). -/
def ModelField.setFieldInfo : ModelField → FieldInfo → ModelField
  | .mk n a r d s t sf _ c, fi => .mk n a r d s t sf fi c

/-- `DependantUtils.get_param_field`: wrap a parameter into a pydantic
    `ModelField`. The pydantic `Required` sentinel is `Option.none`; a
    `Depends` default never reaches this function from `new_dependant`
    (it is filtered out earlier) and is treated as a plain object default.
    An empty-string alias is not distinguished from an absent one. -/
def get_param_field (param : SigParam) (default_cls : FIClass) : ModelField :=
  let dv0 : Option PyValue :=
    match param.default with
    | .empty => Option.none
    | .val v => Option.some v
    | .info fi => fi.default
    | .depends _ => Option.some PyValue.none
  let had_schema : Bool :=
    match param.default with
    | .info _ => true
    | _ => false
  let field_info : FieldInfo :=
    match param.default with
    | .info fi =>
      if isParamCls fi.cls && fi.in_ == Option.none then
        { fi with in_ := clsIn default_cls }
      else fi
    | .empty => mkMarker default_cls Option.none
    | .val v => mkMarker default_cls (Option.some v)
    | .depends _ => mkMarker default_cls (Option.some PyValue.none)
  let required : Bool := dv0.isNone
  let alias0 : String :=
    if field_info.alias_ == Option.none && field_info.convertUnderscores then
      param.name.replace "_" "-"
    else (field_info.alias_).getD param.name
  let field := create_model_field param.name param.ann
    (if required then PyValue.none else dv0.getD PyValue.none) required
    field_info (Option.some alias0)
  if !had_schema && !is_scalar_field field then
    field.setFieldInfo (mkMarker FIClass.body field_info.default)
  else field

/-- `Dependant`: one node of the dependency tree. The `parent_dependant`
    back-reference of the source is diagnostic only and is not representable
    in a pure tree; every other attribute is kept. -/
inductive Dependant where
  | mk (call : Option Callable) (ismethod : Bool) (is_view_func : Bool)
       (name : Option String)
       (path_params : List ModelField) (query_params : List ModelField)
       (header_params : List ModelField) (cookie_params : List ModelField)
       (body_params : List ModelField)
       (request_param_name : Option String)
       (dependencies : List Dependant)

def Dependant.call : Dependant → Option Callable
  | .mk c _ _ _ _ _ _ _ _ _ _ => c

def Dependant.ismethod : Dependant → Bool
  | .mk _ m _ _ _ _ _ _ _ _ _ => m

def Dependant.is_view_func : Dependant → Bool
  | .mk _ _ v _ _ _ _ _ _ _ _ => v

def Dependant.name : Dependant → Option String
  | .mk _ _ _ n _ _ _ _ _ _ _ => n

def Dependant.path_params : Dependant → List ModelField
  | .mk _ _ _ _ p _ _ _ _ _ _ => p

def Dependant.query_params : Dependant → List ModelField
  | .mk _ _ _ _ _ q _ _ _ _ _ => q

def Dependant.header_params : Dependant → List ModelField
  | .mk _ _ _ _ _ _ h _ _ _ _ => h

def Dependant.cookie_params : Dependant → List ModelField
  | .mk _ _ _ _ _ _ _ c _ _ _ => c

def Dependant.body_params : Dependant → List ModelField
  | .mk _ _ _ _ _ _ _ _ b _ _ => b

def Dependant.request_param_name : Dependant → Option String
  | .mk _ _ _ _ _ _ _ _ _ r _ => r

def Dependant.dependencies : Dependant → List Dependant
  | .mk _ _ _ _ _ _ _ _ _ _ d => d

/-- `self.path_params.append(field)` and friends, per location. -/
def Dependant.appendParam : Dependant → ParamTypes → ModelField → Dependant
  | .mk c m v n p q h k b r d, .path, f => .mk c m v n (p ++ [f]) q h k b r d
  | .mk c m v n p q h k b r d, .query, f => .mk c m v n p (q ++ [f]) h k b r d
  | .mk c m v n p q h k b r d, .header, f => .mk c m v n p q (h ++ [f]) k b r d
  | .mk c m v n p q h k b r d, .cookie, f => .mk c m v n p q h (k ++ [f]) b r d

def Dependant.appendBodyParam : Dependant → ModelField → Dependant
  | .mk c m v n p q h k b r d, f => .mk c m v n p q h k (b ++ [f]) r d

def Dependant.appendDependency : Dependant → Dependant → Dependant
  | .mk c m v n p q h k b r d, s => .mk c m v n p q h k b r (d ++ [s])

def Dependant.setRequestParamName : Dependant → String → Dependant
  | .mk c m v n p q h k b _ d, r => .mk c m v n p q h k b (Option.some r) d

/-- `Dependant._add_scalar_field`: dispatch on the marker's `in_`; a
    non-body field whose marker is in none of the four non-body locations
    is a fatal configuration error. -/
def _add_scalar_field (d : Dependant) (param_field : ModelField) :
    Except PyErr Dependant :=
  match param_field.fieldInfo.in_ with
  | Option.some loc => .ok (d.appendParam loc param_field)
  | Option.none =>
    .error (.exception ("non-body parameters must be in path, query, header or cookie: "
      ++ param_field.name))

/-- `Dependant._add_body_field`, verbatim: it raises when the field's marker
    IS a `params.Body` instance, and appends to `body_params` otherwise. -/
def _add_body_field (d : Dependant) (param_field : ModelField) :
    Except PyErr Dependant :=
  if isBodyCls param_field.fieldInfo.cls then
    .error (.exception ("Param: " ++ param_field.name
      ++ " can only be a request body, using Body(...)"))
  else .ok (d.appendBodyParam param_field)

/-- `isinstance(param.default, (params.Query, params.Header))`. -/
def defaultIsQueryOrHeader (dv : DefaultVal) : Bool :=
  match dv with
  | .info fi => fi.cls == FIClass.query || fi.cls == FIClass.header
  | _ => false

/-- `Dependant.add_param_field`: scalar fields go to their marker's
    location; scalar-sequence fields explicitly declared Query/Header go
    there too; everything else goes through `_add_body_field`. -/
def add_param_field (d : Dependant) (param : SigParam) (param_field : ModelField) :
    Except PyErr Dependant :=
  if is_scalar_field param_field then _add_scalar_field d param_field
  else if defaultIsQueryOrHeader param.default
      && is_scalar_sequence_field param_field then
    _add_scalar_field d param_field
  else _add_body_field d param_field

/-- `Dependant.add_special_param_field`: the source's test is
    `isinstance(param.annotation, HttpRequest) or param.name == "request"`.
    The annotation is the `HttpRequest` class object itself, and a class is
    not an instance of itself, so in Python only the name test is
    effective. -/
def is_special_request_param (p : SigParam) : Bool :=
  p.name == "request"

mutual

/-- `Dependant.new_dependant`: analyze a callable's parameters and build its
    dependency node. -/
def new_dependant (call : Callable) (name : Option String)
    (is_view_func : Bool) : Except PyErr Dependant :=
  match call with
  | .mk reprStr sigParams =>
    if sigParams.isEmpty then
      .error (.exception "The django view function must have at least a request argument")
    else
      let ismethod : Bool :=
        match sigParams with
        | p :: _ => p.name == "self"
        | [] => false
      if is_view_func && ismethod && sigParams.length < 2 then
        .error (.exception "The django view function is missing a request parameter.")
      else
        process_params
          (Dependant.mk (Option.some (.mk reprStr sigParams)) ismethod is_view_func
            name [] [] [] [] [] Option.none [])
          sigParams
termination_by sizeOf call

/-- The body of `new_dependant`'s parameter loop, one parameter at a time:
    skip `self`; recurse into `Depends` defaults (`depends.dependency` when
    given, else the parameter's own annotation); record the request
    parameter; otherwise wrap into a field and classify it. -/
def process_params (d : Dependant) (ps : List SigParam) : Except PyErr Dependant :=
  match ps with
  | [] => .ok d
  | p :: rest =>
    if p.name == "self" then process_params d rest
    else
      match p with
      | .mk _ (.depends (Option.some c)) _ _ =>
        match new_param_sub_dependant (Option.some c) with
        | .error e => .error e
        | .ok sub => process_params (d.appendDependency sub) rest
      | .mk _ (.depends Option.none) _ annC =>
        match new_param_sub_dependant annC with
        | .error e => .error e
        | .ok sub => process_params (d.appendDependency sub) rest
      | _ =>
        if is_special_request_param p then
          process_params (d.setRequestParamName p.name) rest
        else
          let param_field := get_param_field p FIClass.query
          match add_param_field d p param_field with
          | .error e => .error e
          | .ok d2 => process_params d2 rest
termination_by sizeOf ps

/-- `Dependant.new_param_sub_dependant` / `_new_sub_dependant`: build a
    child node for the chosen dependency callable; a non-callable (absent)
    dependency makes the signature inspection raise `TypeError`. The child
    is built with `name=None` and `is_view_func=False`. -/
def new_param_sub_dependant (dependency : Option Callable) :
    Except PyErr Dependant :=
  match dependency with
  | Option.some c => new_dependant c Option.none false
  | Option.none => .error (.typeError "dependency object is not supported by signature")
termination_by sizeOf dependency

end


/-- Extend the accumulator's five location lists with a (flattened) child's
    lists, leaving every other attribute of the accumulator unchanged —
    the body of the loop in `Dependant.flat`. -/
def Dependant.extendParamsWith : Dependant → Dependant → Dependant
  | .mk c m v n p q h k b r d, sub =>
    .mk c m v n (p ++ sub.path_params) (q ++ sub.query_params)
      (h ++ sub.header_params) (k ++ sub.cookie_params) (b ++ sub.body_params) r d

/-- `Dependant.flat`: a fresh `Dependant` (all constructor defaults, so
    `dependencies = []`) seeded with copies of this node's five lists, then
    extended, child by child in order, with each child's own flattening. -/
def Dependant.flat (d : Dependant) : Dependant :=
  match d with
  | .mk _ _ _ _ p q h k b _ deps =>
    let init := Dependant.mk Option.none false false Option.none p q h k b
      Option.none []
    deps.attach.foldl (fun acc s => acc.extendParamsWith s.1.flat) init
termination_by sizeOf d
decreasing_by
  simp_wf
  have h1 := List.sizeOf_lt_of_mem s.2
  omega

/-- The specification-level pre-order merge for one location: a node's own
    list followed by the pre-order lists of its children, in order. -/
def preorder_params (proj : Dependant → List ModelField) (d : Dependant) :
    List ModelField :=
  match d with
  | .mk _ _ _ _ _ _ _ _ _ _ deps =>
    proj d ++ (deps.attach.map (fun s => preorder_params proj s.1)).flatten
termination_by sizeOf d
decreasing_by
  simp_wf
  have h1 := List.sizeOf_lt_of_mem s.2
  omega

/-- The outcome of `Dependant.get_body_field`: the returned `ModelField`,
    plus — when the synthetic-composite branch ran — the `__fields__`
    mapping of the `create_model` result assigned by the source
    (`BodyModel.__fields__[param.name] = param`); `Option.none` there means
    the sole flattened body field was returned unmodified. -/
structure BodyFieldOut where
  field : ModelField
  modelFields : Option (List (String × ModelField))

/-- `BodyModel.__fields__[k] = f`: dict upsert keyed by field name. -/
def bodyModelSetField (m : List (String × ModelField)) (k : String)
    (f : ModelField) : List (String × ModelField) :=
  if m.any (fun p => p.1 == k) then
    m.map (fun p => if p.1 == k then (k, f) else p)
  else m ++ [(k, f)]

/-- `Dependant.get_body_field`: flatten, return `None` when there are no
    body fields; pass the first field through unmodified when the set of
    body-field NAMES has exactly one element and the first field's `embed`
    test is false; otherwise mark every body field embedded and synthesize
    the composite `Body_<name>` model field. The embed test is
    `getattr(first_param, "embed", False)` on the pydantic `ModelField`
    object, which has no `embed` attribute (the flag is set on
    `field_info`, as this very function does two lines later), so the
    `getattr` default `False` is always returned. -/
def get_body_field (d : Dependant) (name : String) : Option BodyFieldOut :=
  let flat_dependant := d.flat
  match flat_dependant.body_params with
  | [] => Option.none
  | first_param :: _ =>
    let first_param_embed := false
    let names := (flat_dependant.body_params.map ModelField.name).dedup
    if names.length == 1 && !first_param_embed then
      Option.some { field := first_param, modelFields := Option.none }
    else
      let marked := flat_dependant.body_params.map (fun p => p.setInfoEmbed true)
      let model_name := "Body_" ++ name
      let model_fields := marked.foldl
        (fun acc p => bodyModelSetField acc p.name p) []
      let required := marked.any (fun f => f.required)
      let info_cls : FIClass :=
        if marked.any (fun p => p.fieldInfo.cls == FIClass.file) then .file
        else if marked.any (fun p => p.fieldInfo.cls == FIClass.form) then .form
        else .body
      let media : String :=
        if info_cls == FIClass.body then
          let body_param_media_types := marked.filterMap (fun p =>
            if isBodyCls p.fieldInfo.cls then Option.some p.fieldInfo.mediaType
            else Option.none)
          if body_param_media_types.dedup.length == 1 then
            body_param_media_types.headD "application/json"
          else "application/json"
        else (mkMarker info_cls (Option.some PyValue.none)).mediaType
      let final_info : FieldInfo :=
        { mkMarker info_cls (Option.some PyValue.none) with mediaType := media }
      let final_field := create_model_field "body"
        { shape := .singleton, type_ := .createdModel model_name, subFields := []
          checker := .objWith (marked.filterMap (fun p =>
            if p.required then Option.some p.name else Option.none)) }
        PyValue.none required final_info (Option.some "body")
      Option.some { field := final_field, modelFields := Option.some model_fields }

/-- The validation outcome as the source inspects it: pydantic
    `field.validate` returns `None`, a single `ErrorWrapper`, or a list of
    them in its error slot. -/
inductive VErrors where
  | noneE
  | single (e : ErrorWrapper)
  | listE (es : List ErrorWrapper)

/-- `field.validate(v, values, loc)`. Fields built by
    `create_model_field` carry `class_validators={}`, so the `values`
    argument cannot influence the outcome; leaf errors are wrapped at
    `loc`, one leaf as a bare `ErrorWrapper`, several as a list. -/
def ModelField.validate (f : ModelField) (v : PyValue) (values : PyDict)
    (loc : Loc) : PyValue × VErrors :=
  match values with
  | _ =>
    match runChecker f.checker v with
    | .ok w => (w, .noneE)
    | .error [k] => (v, .single ⟨k, loc⟩)
    | .error ks => (v, .listE (ks.map (fun k => ⟨k, loc⟩)))

/-- `get_missing_field_error(loc)`. -/
def get_missing_field_error (loc : Loc) : ErrorWrapper :=
  ⟨.missing, loc⟩

/-- The `param_values` argument of `to_args`:
    `Union[Dict[str, Any], QueryDict, MultiValueDict]`. -/
inductive ParamSource where
  | pyDict (m : PyDict)
  | queryDict (m : MultiMap)
  | multiValueDict (m : MultiMap)

/-- `isinstance(param_values, QueryDict)`. -/
def ParamSource.isQueryDict : ParamSource → Bool
  | .queryDict _ => true
  | _ => false

/-- `param_values.get(key)`: plain dict lookup, or the multi-valued `get`
    returning the last value; `None` when absent. -/
def ParamSource.get (pv : ParamSource) (k : String) : PyValue :=
  match pv with
  | .pyDict m => (dictGet m k).getD .none
  | .queryDict m => multiGetLast m k
  | .multiValueDict m => multiGetLast m k

/-- `param_values.getlist(key)` (only reached on a `QueryDict`). -/
def ParamSource.getlist (pv : ParamSource) (k : String) : List PyValue :=
  match pv with
  | .pyDict _ => []
  | .queryDict m => multiGetList m k
  | .multiValueDict m => multiGetList m k

/-- Python `a or b`. -/
def pyOr (a b : PyValue) : PyValue :=
  if pyTruthy a then a else b

/-- One validation step of the `to_args` loop: append a bare error, extend
    with an error list, or store the validated value under the field's
    NAME. -/
def to_args_validate_step (field : ModelField) (ptype : ParamTypes)
    (value : PyValue) (values : PyDict) (errors : List ErrorWrapper) :
    PyDict × List ErrorWrapper :=
  match field.validate value values [.s ptype.value, .s field.alias_] with
  | (_, .single e) => (values, errors ++ [e])
  | (_, .listE es) => (values, errors ++ es)
  | (w, .noneE) => (dictSet values field.name w, errors)

/-- The loop of `RequestConverter.to_args`, with the `values`/`errors`
    accumulators explicit. For each field: read the raw value (the full
    value list for scalar-sequence fields of a `QueryDict`, with the
    field's default as fallback, else a single `get`); assert the marker
    is a `Param` (a `None` `in_` would raise `AttributeError` on
    `.value`); absent required fields contribute a missing error at
    `(location, alias)` and the loop continues; absent optional fields
    fall back to a fresh copy of the default (`deepcopy` is the identity
    on these pure values); everything else is validated. -/
def to_args_loop : List ModelField → ParamSource → PyDict →
    List ErrorWrapper → Except PyErr (PyDict × List ErrorWrapper)
  | [], _, values, errors => .ok (values, errors)
  | field :: rest, pv, values, errors =>
    let value : PyValue :=
      if is_scalar_sequence_field field && pv.isQueryDict then
        pyOr (.listV (pv.getlist field.alias_)) field.default
      else pv.get field.alias_
    if !isParamCls field.fieldInfo.cls then
      .error (.assertionError "Param must be subclasses of Param")
    else
      match field.fieldInfo.in_ with
      | Option.none => .error (.attributeError "value")
      | Option.some ptype =>
        if value.isNoneV then
          if field.required then
            to_args_loop rest pv values
              (errors ++ [⟨.missing, [.s ptype.value, .s field.alias_]⟩])
          else
            let step := to_args_validate_step field ptype field.default values errors
            to_args_loop rest pv step.1 step.2
        else
          let step := to_args_validate_step field ptype value values errors
          to_args_loop rest pv step.1 step.2

/-- `RequestConverter.to_args`. -/
def to_args (param_fields : List ModelField) (param_values : ParamSource) :
    Except PyErr (PyDict × List ErrorWrapper) :=
  to_args_loop param_fields param_values [] []

/-- `body.get(field.alias)`: mappings answer, everything else lacks the
    `get` attribute. -/
def pyGet : PyValue → String → Except PyErr PyValue
  | .dictV m, k => .ok ((dictGet m k).getD .none)
  | .multiDict m, k => .ok (multiGetLast m k)
  | _, _ => .error (.attributeError "get")

/-- The tail of one `to_body` loop iteration, after the raw value was
    found: the falsy-value block (missing error for required fields, a
    default store for optional ones — with NO `continue`, so validation
    still runs), then the validation dispatch. The source's second branch
    tests `isinstance(errors, list)` — and the local `errors` is always a
    list — instead of `validate_errors`, so a successful validation
    reaches `errors.extend(None)`, which raises `TypeError`; the final
    `else` that would store the validated value is unreachable. -/
def to_body_step (field : ModelField) (loc : Loc) (value : PyValue)
    (values : PyDict) (errors : List ErrorWrapper) :
    Except PyErr (PyDict × List ErrorWrapper) :=
  let acc : PyDict × List ErrorWrapper :=
    if !pyTruthy value then
      if field.required then (values, errors ++ [get_missing_field_error loc])
      else (dictSet values field.name field.default, errors)
    else (values, errors)
  match field.validate value acc.1 loc with
  | (_, .single e) => .ok (acc.1, acc.2 ++ [e])
  | (_, .noneE) => .error (.typeError "argument of type NoneType is not iterable")
  | (_, .listE es) => .ok (acc.1, acc.2 ++ es)

/-- The loop of `RequestConverter.to_body`: per-field location tuple
    (`("body",)` when the single field's alias is omitted, else
    `("body", alias)`), multi-valued lookup for sequence fields of a
    `MultiValueDict` body, `body.get(alias)` otherwise — where a
    non-mapping body raises `AttributeError`, caught as a missing-field
    error that continues with the next field. -/
def to_body_loop : List ModelField → Option PyValue → Bool → PyDict →
    List ErrorWrapper → Except PyErr (PyDict × List ErrorWrapper)
  | [], _, _, values, errors => .ok (values, errors)
  | field :: rest, body, omitted, values, errors =>
    let loc : Loc := if omitted then [.s "body"] else [.s "body", .s field.alias_]
    match body with
    | Option.none =>
      match to_body_step field loc PyValue.none values errors with
      | .error e => .error e
      | .ok acc => to_body_loop rest body omitted acc.1 acc.2
    | Option.some b =>
      if (inSequenceShapes field.shape || isSequenceType field.type_)
          && (match b with | .multiDict _ => true | _ => false) then
        let value := PyValue.listV (match b with
          | .multiDict m => multiGetList m field.alias_
          | _ => [])
        match to_body_step field loc value values errors with
        | .error e => .error e
        | .ok acc => to_body_loop rest body omitted acc.1 acc.2
      else
        match pyGet b field.alias_ with
        | .error _ =>
          to_body_loop rest body omitted values
            (errors ++ [get_missing_field_error loc])
        | .ok v =>
          match to_body_step field loc v values errors with
          | .error e => .error e
          | .ok acc => to_body_loop rest body omitted acc.1 acc.2

/-- `RequestConverter.to_body`: nothing to do without body fields; with a
    single non-embedded field the alias is omitted and the raw body is
    wrapped as `{field.alias: body}` before the loop. The `is_body_form`
    parameter is accepted and, as in the source, never used. -/
def to_body (param_fields : List ModelField) (body : Option PyValue)
    (is_body_form : Bool) : Except PyErr (PyDict × List ErrorWrapper) :=
  match param_fields, is_body_form with
  | [], _ => .ok ([], [])
  | field0 :: rest0, _ =>
    let embed := field0.fieldInfo.embed
    let field_alias_omitted := (field0 :: rest0).length == 1 && !embed
    let body2 : Option PyValue :=
      if field_alias_omitted then
        Option.some (.dictV [(field0.alias_, body.getD .none)])
      else body
    to_body_loop (field0 :: rest0) body2 field_alias_omitted [] []

/-- Outcome of the stdlib `json.loads` on the raw body bytes — external
    library behavior, supplied as part of the request model
    (`JSONDecodeError` carries message, offset `pos` and document `doc`). -/
inductive JsonLoadsResult where
  | ok (v : PyValue)
  | decodeError (msg : String) (pos : Nat) (doc : String)

/-- The slice of a Django `HttpRequest` read by the wrapper: whether the
    raw body bytes are empty, the `json.loads` outcome for them, and the
    `POST`/`FILES` multi-maps. -/
structure Request where
  bodyIsEmpty : Bool
  jsonLoadsResult : JsonLoadsResult
  postData : MultiMap
  filesData : MultiMap

/-- `BodyConverter.to_json`: empty body bytes give `None` without parsing;
    otherwise the `json.loads` outcome, whose decode failure propagates as
    `json.JSONDecodeError`. -/
def BodyConverter_to_json (request : Request) : Except PyErr (Option PyValue) :=
  if request.bodyIsEmpty then .ok Option.none
  else
    match request.jsonLoadsResult with
    | .ok v => .ok (Option.some v)
    | .decodeError m p d => .error (.jsonDecodeError m p d)

/-- `BodyConverter.to_form`: a fresh `MultiValueDict` updated with
    `request.POST` then `request.FILES`. -/
def BodyConverter_to_form (request : Request) : PyValue :=
  .multiDict (mvUpdate (mvUpdate [] request.postData) request.filesData)

/-- The keyword parameters accepted by `Dependant.solve_dependencies`,
    whose signature is `(self, *, request, path_kwargs)`. -/
def solve_dependencies_kwparams : List String :=
  ["request", "path_kwargs"]

/-- The keyword arguments the wrapper passes at the call site
    `dependant.solve_dependencies(request=..., body=..., path_kwargs=...,
    is_body_form=...)`. -/
def inner_solve_call_kwargs : List String :=
  ["request", "body", "path_kwargs", "is_body_form"]

/-- The body of `Dependant.solve_dependencies` is `pass`, so the call —
    were it to be entered — would return `None`. -/
def solve_dependencies_stub : Unit → Option (PyDict × List ErrorWrapper) :=
  fun _ => Option.none

/-- Python keyword-call semantics for the solve call: a keyword argument
    the callee does not accept (or a missing required keyword) raises
    `TypeError` before the function body runs. -/
def call_solve_dependencies (run : Unit → Option (PyDict × List ErrorWrapper)) :
    Except PyErr (Option (PyDict × List ErrorWrapper)) :=
  if inner_solve_call_kwargs.all (fun k => solve_dependencies_kwparams.contains k)
      && solve_dependencies_kwparams.all (fun k => inner_solve_call_kwargs.contains k) then
    .ok (run ())
  else .error (.typeError "solve_dependencies got an unexpected keyword argument")

/-- `values, errors = solved_result`: unpacking `None` raises `TypeError`. -/
def py_unpack_pair (v : Option (PyDict × List ErrorWrapper)) :
    Except PyErr (PyDict × List ErrorWrapper) :=
  match v with
  | Option.none => .error (.typeError "cannot unpack non-iterable NoneType object")
  | Option.some p => .ok p

/-- `_prepare_response_content`: with no `BaseModel` instances in the value
    universe, the recursion rebuilds lists and dicts element-wise. -/
def _prepare_response_content (content : PyValue) : PyValue :=
  match content with
  | .listV xs => .listV (xs.attach.map (fun s => _prepare_response_content s.1))
  | .dictV xs => .dictV (xs.attach.map (fun s =>
      (s.1.1, _prepare_response_content s.1.2)))
  | v => v
termination_by sizeOf content
decreasing_by
  · simp_wf
    have h1 := List.sizeOf_lt_of_mem s.2
    omega
  · simp_wf
    have h1 := List.sizeOf_lt_of_mem s.2
    have h2 : sizeOf s.1.2 < sizeOf s.1 := by
      cases hs : s.1 with
      | mk a b => simp [hs]
    omega

/-- `BaseModel.dict(by_alias, include, exclude)` on a validated value:
    key filtering by the include/exclude sets. The value universe carries
    no alias metadata, so `by_alias` renaming is the identity here. -/
def py_model_dict (v : PyValue) (include_ exclude_ : Option (List String))
    (by_alias : Bool) : PyValue :=
  match v, by_alias with
  | .dictV xs, _ =>
    let xs1 := match include_ with
      | Option.some ks => xs.filter (fun p => ks.contains p.1)
      | Option.none => xs
    let xs2 := match exclude_ with
      | Option.some ks => xs1.filter (fun p => !ks.contains p.1)
      | Option.none => xs1
    .dictV xs2
  | w, _ => w

/-- A printable name for `field.type_`, used by `ValidationError`. -/
def typeNameOf : TypeTag → String
  | .intT => "int"
  | .strT => "str"
  | .boolT => "bool"
  | .anyT => "Any"
  | .baseModel n => n
  | .createdModel n => n
  | .listCls => "list"
  | .setCls => "set"
  | .tupleCls => "tuple"
  | .dictCls => "dict"

/-- `serialize_response`: without a declared response field the content is
    returned untouched; with one, the content is prepared, validated at
    location `("response",)` (failures raise `ValidationError`, a
    server-side fault), projected through `.dict(...)`, and a `__root__`
    wrapper is unwrapped. -/
def serialize_response (field : Option ModelField) (response_content : PyValue)
    (include_ exclude_ : Option (List String)) (by_alias : Bool) :
    Except PyErr PyValue :=
  match field with
  | Option.none => .ok response_content
  | Option.some f =>
    let content := _prepare_response_content response_content
    match f.validate content [] [.s "response"] with
    | (_, .single e) => .error (.validation [e] (typeNameOf f.type_))
    | (_, .listE es) => .error (.validation es (typeNameOf f.type_))
    | (v, .noneE) =>
      let result := py_model_dict v include_ exclude_ by_alias
      match result with
      | .dictV xs =>
        match dictGet xs "__root__" with
        | Option.some r => .ok r
        | Option.none => .ok (.dictV xs)
      | r => .ok r

/-- `Dependant.new_paramless_sub_dependant`: a dependency attached outside
    the signature must be callable. -/
def new_paramless_sub_dependant (dependency : Option Callable) :
    Except PyErr Dependant :=
  match dependency with
  | Option.none => .error (.exception "dependency must be callable")
  | Option.some c => new_dependant c Option.none false

/-- `self._dependant.dependencies.insert(0, sub)`. -/
def Dependant.prependDependency : Dependant → Dependant → Dependant
  | .mk c m v n p q h k b r d, s => .mk c m v n p q h k b r (s :: d)

/-- The classmethods defined on `DependantUtils` in the source; looking up
    any other attribute name on the class raises `AttributeError`. -/
def dependant_utils_attrs : List String :=
  ["get_param_field", "is_scalar_field", "is_scalar_sequence_field",
   "create_model_field", "get_typed_signature", "get_typed_annotation"]

/-- Python class-attribute lookup against a fixed attribute table. -/
def py_class_getattr (attrs : List String) (name : String) :
    Except PyErr Unit :=
  if attrs.contains name then .ok ()
  else .error (.attributeError name)

/-- The registration-time inputs of `ViewRoute.__init__` that the
    embedding tracks: the view function, the administratively-attached
    `Depends` payloads, the declared response model and status code, and
    the response projection options. -/
structure RouteConfig where
  view_func : Callable
  dependencies : List (Option Callable)
  response_model : Option AnnData
  status_code : Nat
  response_model_include : Option (List String)
  response_model_exclude : Option (List String)
  response_model_by_alias : Bool

/-- The registered route state read by the wrapper: the dependency tree,
    the synthesized body field and form flag, the (cloned) response field
    exposed as `route.response_field`, and the status code. -/
structure ViewRouteData where
  dependant : Dependant
  body_field : Option BodyFieldOut
  is_body_form : Bool
  response_field : Option ModelField
  status_code : Nat
  response_model_include : Option (List String)
  response_model_exclude : Option (List String)
  response_model_by_alias : Bool

/-- A plain pydantic `FieldInfo(None)`. -/
def plainFieldInfo : FieldInfo :=
  { cls := .plain, in_ := Option.none, default := Option.some PyValue.none
    alias_ := Option.none, convertUnderscores := false, embed := false
    mediaType := "" }

/-- `ViewRoute.__init__` up to and including body-field synthesis: build
    the dependant from the view function (`is_view_func=True`), insert the
    administratively-attached dependencies at the front (iterating the
    declared list reversed and inserting at index 0 preserves declaration
    order), then compute the body field — named by the route's unique id,
    `str(view_func)` — and the form flag
    (`isinstance(body_field.field_info, params.Form)`). -/
def viewroute_init_stage1 (cfg : RouteConfig) :
    Except PyErr (Dependant × Option BodyFieldOut × Bool) := do
  let dependant0 ← new_dependant cfg.view_func Option.none true
  let dependant ← cfg.dependencies.reverse.foldlM (fun d dep => do
    let sub ← new_paramless_sub_dependant dep
    pure (d.prependDependency sub)) dependant0
  let unique_id := cfg.view_func.reprStr
  let body_field := get_body_field dependant unique_id
  let is_body_form :=
    match body_field with
    | Option.some bf => bf.field.fieldInfo.cls == FIClass.form
    | Option.none => false
  pure (dependant, body_field, is_body_form)

/-- `ViewRoute.__init__`: after stage 1, a declared response model builds
    the raw response field and then looks up
    `DependantUtils.create_cloned_field` — a classmethod defined nowhere in
    the codebase, so the class-attribute lookup raises `AttributeError`
    (the arm after the lookup records what the source would store and is
    unreachable). Without a response model both response fields are
    `None`. -/
def viewroute_init (cfg : RouteConfig) : Except PyErr ViewRouteData := do
  let s1 ← viewroute_init_stage1 cfg
  match cfg.response_model with
  | Option.some rm => do
    let response_name := "Response_" ++ cfg.view_func.reprStr
    let response_field := create_model_field response_name rm PyValue.none
      false plainFieldInfo Option.none
    let _ ← py_class_getattr dependant_utils_attrs "create_cloned_field"
    pure { dependant := s1.1, body_field := s1.2.1, is_body_form := s1.2.2
           response_field := Option.some response_field
           status_code := cfg.status_code
           response_model_include := cfg.response_model_include
           response_model_exclude := cfg.response_model_exclude
           response_model_by_alias := cfg.response_model_by_alias }
  | Option.none =>
    pure { dependant := s1.1, body_field := s1.2.1, is_body_form := s1.2.2
           response_field := Option.none
           status_code := cfg.status_code
           response_model_include := cfg.response_model_include
           response_model_exclude := cfg.response_model_exclude
           response_model_by_alias := cfg.response_model_by_alias }

/-- What a handler returns: an already-finished `HttpResponse` (with its
    own payload and status), or plain data to serialize. -/
inductive HandlerResult where
  | httpResponse (payload : PyValue) (status : Nat)
  | value (v : PyValue)

/-- The body-acquisition stage of the wrapper (the `try` block): only
    routes with a body field read the body, as form data or as JSON. -/
def inner_body_stage (route : ViewRouteData) (view_request : Request) :
    Except PyErr (Option PyValue) :=
  if route.body_field.isSome then
    if route.is_body_form then .ok (Option.some (BodyConverter_to_form view_request))
    else BodyConverter_to_json view_request
  else .ok Option.none

/-- The per-request wrapper `inner` built by the `Autowired` decorator for
    a registered route. The positional-argument dance that selects
    `view_request` (class-based vs function view) is resolved by passing
    the request directly, and the handler is a parameter so theorems can
    quantify over it. A `json.JSONDecodeError` from the body stage becomes
    a `RequestValidationError` with one error wrapping the decode failure
    at `("body", e.pos)` and `body=e.doc`; any other body-stage exception
    becomes `APIException(422)`. Then `solve_dependencies` is called with
    the keyword arguments `request, body, path_kwargs, is_body_form`,
    the result is unpacked, accumulated errors raise
    `RequestValidationError`, and the handler's return is passed through
    response serialization. -/
def inner_wrapper (route : ViewRouteData) (handler : PyDict → Except PyErr HandlerResult)
    (view_request : Request) (path_kwargs : PyDict) :
    Except PyErr (PyValue × Nat) := do
  let body : Option PyValue ←
    match inner_body_stage route view_request with
    | .ok b => pure b
    | .error (.jsonDecodeError msg pos doc) =>
      throw (.requestValidation [⟨.jsonDecode msg pos doc, [.s "body", .n pos]⟩]
        (Option.some (.str doc)))
    | .error _ => throw (.apiException 422 "parse body error")
  let solved ← call_solve_dependencies solve_dependencies_stub
  let va ← py_unpack_pair solved
  if !va.2.isEmpty then
    throw (.requestValidation va.2 body)
  else do
    let raw_response ← handler va.1
    match raw_response with
    | .httpResponse payload status => pure (payload, status)
    | .value v => do
      let response_data ← serialize_response route.response_field v
        route.response_model_include route.response_model_exclude
        route.response_model_by_alias
      pure (response_data, route.status_code)

/-! ## Concrete fixtures used by the theorems -/

/-- A plain `int` validator with no constraints. -/
def intChecker : Checker := .intC Option.none Option.none Option.none Option.none

/-- The pydantic view of a `List[int]` annotation: list shape over `int`,
    with the element sub-field pydantic generates. -/
def idsAnn : AnnData :=
  { shape := .shapeList, type_ := .intT
    subFields := [.mk "ids_item" "ids_item" true PyValue.none .singleton .intT []
      plainFieldInfo intChecker]
    checker := .anyOk }

/-- `ids: List[int]` with no default at all — a scalar-sequence parameter
    with no location marker. -/
def idsParam : SigParam := .mk "ids" DefaultVal.empty idsAnn Option.none

/-- A callable declaring only `ids: List[int]`. -/
def ids_view : Callable := .mk "ids_view" [idsParam]

/-- `ids: List[int] = Query(...)` — the same parameter explicitly declared
    as a query field. -/
def idsQueryMarkedParam : SigParam :=
  .mk "ids" (DefaultVal.info (mkMarker .query Option.none)) idsAnn Option.none

def ids_query_view : Callable := .mk "ids_query_view" [idsQueryMarkedParam]

/-- `ids: List[int] = Path(...)` — a scalar-sequence parameter with a
    non-query/header location marker. -/
def idsPathMarkedParam : SigParam :=
  .mk "ids" (DefaultVal.info (mkMarker .path Option.none)) idsAnn Option.none

def ids_path_view : Callable := .mk "ids_path_view" [idsPathMarkedParam]

/-- The `ModelField` that `get_param_field` produces for
    `ids: List[int] = Query(...)`. -/
def idsQueryField : ModelField :=
  .mk "ids" "ids" true PyValue.none .shapeList .intT
    [.mk "ids_item" "ids_item" true PyValue.none .singleton .intT []
      plainFieldInfo intChecker]
    (mkMarker .query Option.none) .anyOk

/-- The `ModelField` that `get_param_field` produces for
    `ids: List[int] = Path(...)`. -/
def idsPathField : ModelField :=
  .mk "ids" "ids" true PyValue.none .shapeList .intT
    [.mk "ids_item" "ids_item" true PyValue.none .singleton .intT []
      plainFieldInfo intChecker]
    (mkMarker .path Option.none) .anyOk

/-- `user_id: int = Body(...)` — a parameter whose classification (body)
    agrees with its declared `Body` marker. -/
def userIdBodyParam : SigParam :=
  .mk "user_id" (DefaultVal.info (mkMarker .body Option.none))
    { shape := .singleton, type_ := .intT, subFields := [], checker := intChecker }
    Option.none

def body_marker_view : Callable := .mk "body_marker_view" [userIdBodyParam]

/-- `item: Item = Path(...)` — a body-typed (compound) parameter whose
    declared marker is a conflicting non-body location. -/
def itemPathMarkedParam : SigParam :=
  .mk "item" (DefaultVal.info (mkMarker .path Option.none))
    { shape := .singleton, type_ := .baseModel "Item", subFields := []
      checker := .objWith ["id"] }
    Option.none

def path_marker_view : Callable := .mk "path_marker_view" [itemPathMarkedParam]

/-- The `ModelField` that `get_param_field` produces for
    `item: Item = Path(...)`. -/
def itemPathMarkedField : ModelField :=
  .mk "item" "item" true PyValue.none .singleton (.baseModel "Item") []
    (mkMarker .path Option.none) (.objWith ["id"])

/-- A single non-embedded required body field of object type, as produced
    for a bare `item: Item` parameter (its marker was replaced by
    `Body(None)` in `get_param_field`). -/
def itemObjField : ModelField :=
  .mk "item" "item" true PyValue.none .singleton (.baseModel "Item") []
    (mkMarker .body Option.none) (.objWith ["id", "name"])

/-- A well-formed decoded JSON body matching `itemObjField`. -/
def wellFormedItemBody : PyValue :=
  .dictV [("id", .int 1), ("name", .str "x")]

/-- The same object body field explicitly marked `embed=True`
    (`item: Item = Body(..., embed=True)`, as in the repository's own
    `EmbedBodyView` test). -/
def itemEmbedField : ModelField :=
  .mk "item" "item" true PyValue.none .singleton (.baseModel "Item") []
    { mkMarker .body Option.none with embed := true } (.objWith ["id", "name"])

/-- A dependency node whose flattened body-field list is exactly the
    explicitly embedded field. -/
def depEmbed : Dependant :=
  .mk Option.none false false Option.none [] [] [] [] [itemEmbedField]
    Option.none []

/-- Two distinct body fields that share the name `item` (e.g. declared on
    the handler and again on a sub-dependency). -/
def itemDupFieldA : ModelField :=
  .mk "item" "itemA" true PyValue.none .singleton (.baseModel "Item") []
    (mkMarker .body Option.none) (.objWith ["id"])

def itemDupFieldB : ModelField :=
  .mk "item" "itemB" true PyValue.none .singleton (.baseModel "Other") []
    (mkMarker .body Option.none) (.objWith ["name"])

/-- A dependency node with two flattened body fields sharing one name. -/
def depDup : Dependant :=
  .mk Option.none false false Option.none [] [] [] [] [itemDupFieldA, itemDupFieldB]
    Option.none []

/-! ## Structural lemmas about flattening -/

theorem path_params_mk (c m v nm p q h k b r d) :
    (Dependant.mk c m v nm p q h k b r d).path_params = p := rfl

theorem query_params_mk (c m v nm p q h k b r d) :
    (Dependant.mk c m v nm p q h k b r d).query_params = q := rfl

theorem header_params_mk (c m v nm p q h k b r d) :
    (Dependant.mk c m v nm p q h k b r d).header_params = h := rfl

theorem cookie_params_mk (c m v nm p q h k b r d) :
    (Dependant.mk c m v nm p q h k b r d).cookie_params = k := rfl

theorem body_params_mk (c m v nm p q h k b r d) :
    (Dependant.mk c m v nm p q h k b r d).body_params = b := rfl

theorem extend_path (a b : Dependant) :
    (a.extendParamsWith b).path_params = a.path_params ++ b.path_params := by
  cases a; rfl

theorem extend_query (a b : Dependant) :
    (a.extendParamsWith b).query_params = a.query_params ++ b.query_params := by
  cases a; rfl

theorem extend_header (a b : Dependant) :
    (a.extendParamsWith b).header_params = a.header_params ++ b.header_params := by
  cases a; rfl

theorem extend_cookie (a b : Dependant) :
    (a.extendParamsWith b).cookie_params = a.cookie_params ++ b.cookie_params := by
  cases a; rfl

theorem extend_body (a b : Dependant) :
    (a.extendParamsWith b).body_params = a.body_params ++ b.body_params := by
  cases a; rfl

theorem extend_call (a b : Dependant) :
    (a.extendParamsWith b).call = a.call := by cases a; rfl

theorem extend_ismethod (a b : Dependant) :
    (a.extendParamsWith b).ismethod = a.ismethod := by cases a; rfl

theorem extend_is_view_func (a b : Dependant) :
    (a.extendParamsWith b).is_view_func = a.is_view_func := by cases a; rfl

theorem extend_name (a b : Dependant) :
    (a.extendParamsWith b).name = a.name := by cases a; rfl

theorem extend_request_param_name (a b : Dependant) :
    (a.extendParamsWith b).request_param_name = a.request_param_name := by
  cases a; rfl

theorem extend_dependencies (a b : Dependant) :
    (a.extendParamsWith b).dependencies = a.dependencies := by cases a; rfl

theorem foldl_extend_proj {α : Type} (l : List α) (f : α → Dependant)
    (acc : Dependant)
    (proj : Dependant → List ModelField)
    (hproj : ∀ a b : Dependant, proj (a.extendParamsWith b) = proj a ++ proj b) :
    proj (l.foldl (fun a s => a.extendParamsWith (f s)) acc)
      = proj acc ++ (l.map (fun s => proj (f s))).flatten := by
  induction l generalizing acc with
  | nil => simp
  | cons x xs ih => simp [ih, hproj, List.append_assoc]

theorem foldl_extend_fix {α β : Type} (l : List α) (f : α → Dependant)
    (acc : Dependant)
    (proj : Dependant → β)
    (hproj : ∀ a b : Dependant, proj (a.extendParamsWith b) = proj a) :
    proj (l.foldl (fun a s => a.extendParamsWith (f s)) acc) = proj acc := by
  induction l generalizing acc with
  | nil => rfl
  | cons x xs ih => simp [ih, hproj]

theorem Dependant.ext_proj {a b : Dependant}
    (h1 : a.call = b.call) (h2 : a.ismethod = b.ismethod)
    (h3 : a.is_view_func = b.is_view_func) (h4 : a.name = b.name)
    (h5 : a.path_params = b.path_params) (h6 : a.query_params = b.query_params)
    (h7 : a.header_params = b.header_params)
    (h8 : a.cookie_params = b.cookie_params) (h9 : a.body_params = b.body_params)
    (h10 : a.request_param_name = b.request_param_name)
    (h11 : a.dependencies = b.dependencies) : a = b := by
  cases a; cases b
  simp_all [Dependant.call, Dependant.ismethod, Dependant.is_view_func,
    Dependant.name, Dependant.path_params, Dependant.query_params,
    Dependant.header_params, Dependant.cookie_params, Dependant.body_params,
    Dependant.request_param_name, Dependant.dependencies]

theorem flat_eq_preorder (d : Dependant) :
    d.flat = Dependant.mk Option.none false false Option.none
      (preorder_params Dependant.path_params d)
      (preorder_params Dependant.query_params d)
      (preorder_params Dependant.header_params d)
      (preorder_params Dependant.cookie_params d)
      (preorder_params Dependant.body_params d)
      Option.none [] := by
  have main : ∀ (n : Nat) (e : Dependant), sizeOf e ≤ n →
      e.flat = Dependant.mk Option.none false false Option.none
        (preorder_params Dependant.path_params e)
        (preorder_params Dependant.query_params e)
        (preorder_params Dependant.header_params e)
        (preorder_params Dependant.cookie_params e)
        (preorder_params Dependant.body_params e)
        Option.none [] := by
    intro n
    induction n with
    | zero =>
      intro e he
      exfalso
      cases e with
      | mk c m v nm p q h k b r deps => simp at he
    | succ n ih =>
      intro e he
      cases e with
      | mk c m v nm p q h k b r deps =>
        have hsub : ∀ s : { x // x ∈ deps }, sizeOf s.1 ≤ n := by
          intro s
          have h1 := List.sizeOf_lt_of_mem s.2
          have h2 : sizeOf (Dependant.mk c m v nm p q h k b r deps)
              = 1 + sizeOf c + sizeOf m + sizeOf v + sizeOf nm + sizeOf p
                + sizeOf q + sizeOf h + sizeOf k + sizeOf b + sizeOf r
                + sizeOf deps := by
            simp [Dependant.mk.sizeOf_spec]
          omega
        rw [Dependant.flat]
        apply Dependant.ext_proj
        case h1 =>
          rw [foldl_extend_fix _ _ _ Dependant.call extend_call]; rfl
        case h2 =>
          rw [foldl_extend_fix _ _ _ Dependant.ismethod extend_ismethod]; rfl
        case h3 =>
          rw [foldl_extend_fix _ _ _ Dependant.is_view_func extend_is_view_func]; rfl
        case h4 =>
          rw [foldl_extend_fix _ _ _ Dependant.name extend_name]; rfl
        case h10 =>
          rw [foldl_extend_fix _ _ _ Dependant.request_param_name
            extend_request_param_name]; rfl
        case h11 =>
          rw [foldl_extend_fix _ _ _ Dependant.dependencies extend_dependencies]; rfl
        case h5 =>
          rw [foldl_extend_proj _ _ _ Dependant.path_params extend_path]
          simp only [path_params_mk]
          have hmap : deps.attach.map (fun s => Dependant.path_params s.1.flat)
              = deps.attach.map (fun s => preorder_params Dependant.path_params s.1) := by
            apply List.map_congr_left
            intro s _
            rw [ih s.1 (hsub s), path_params_mk]
          rw [hmap, preorder_params]
          simp only [path_params_mk]
        case h6 =>
          rw [foldl_extend_proj _ _ _ Dependant.query_params extend_query]
          simp only [query_params_mk]
          have hmap : deps.attach.map (fun s => Dependant.query_params s.1.flat)
              = deps.attach.map (fun s => preorder_params Dependant.query_params s.1) := by
            apply List.map_congr_left
            intro s _
            rw [ih s.1 (hsub s), query_params_mk]
          rw [hmap, preorder_params]
          simp only [query_params_mk]
        case h7 =>
          rw [foldl_extend_proj _ _ _ Dependant.header_params extend_header]
          simp only [header_params_mk]
          have hmap : deps.attach.map (fun s => Dependant.header_params s.1.flat)
              = deps.attach.map (fun s => preorder_params Dependant.header_params s.1) := by
            apply List.map_congr_left
            intro s _
            rw [ih s.1 (hsub s), header_params_mk]
          rw [hmap, preorder_params]
          simp only [header_params_mk]
        case h8 =>
          rw [foldl_extend_proj _ _ _ Dependant.cookie_params extend_cookie]
          simp only [cookie_params_mk]
          have hmap : deps.attach.map (fun s => Dependant.cookie_params s.1.flat)
              = deps.attach.map (fun s => preorder_params Dependant.cookie_params s.1) := by
            apply List.map_congr_left
            intro s _
            rw [ih s.1 (hsub s), cookie_params_mk]
          rw [hmap, preorder_params]
          simp only [cookie_params_mk]
        case h9 =>
          rw [foldl_extend_proj _ _ _ Dependant.body_params extend_body]
          simp only [body_params_mk]
          have hmap : deps.attach.map (fun s => Dependant.body_params s.1.flat)
              = deps.attach.map (fun s => preorder_params Dependant.body_params s.1) := by
            apply List.map_congr_left
            intro s _
            rw [ih s.1 (hsub s), body_params_mk]
          rw [hmap, preorder_params]
          simp only [body_params_mk]
  exact main (sizeOf d) d (Nat.le_refl _)

theorem flat_flat (d : Dependant) : d.flat.flat = d.flat := by
  rw [flat_eq_preorder d]
  rw [Dependant.flat]
  simp


/-! ## The claims -/

/-- C9: flattening is a pre-order merge — each of the five per-location
    lists of `flat()` is the concatenation, in pre-order, of the node's own
    fields followed by its descendants' fields — and it is idempotent:
    flattening an already-flattened node returns it unchanged, with
    identical ordered field lists. -/
theorem c9_flat_preorder_idempotent (d : Dependant) :
    (d.flat.path_params = preorder_params Dependant.path_params d ∧
     d.flat.query_params = preorder_params Dependant.query_params d ∧
     d.flat.header_params = preorder_params Dependant.header_params d ∧
     d.flat.cookie_params = preorder_params Dependant.cookie_params d ∧
     d.flat.body_params = preorder_params Dependant.body_params d) ∧
    d.flat.flat = d.flat := by
  refine ⟨⟨?_, ?_, ?_, ?_, ?_⟩, flat_flat d⟩ <;> rw [flat_eq_preorder d] <;> rfl

/-- C3 (code bug): on a single non-embedded required object body field and
    a well-formed matching JSON body, `to_body` does wrap the raw body as
    the whole value for that field at location `("body",)`, but the
    successful validation then reaches the source's
    `elif isinstance(errors, list): errors.extend(validate_errors)` branch
    with `validate_errors = None` — `isinstance(errors, list)` is always
    true of the local error list — so the call raises `TypeError` instead
    of binding the decoded body to the field's name. -/
theorem c3_to_body_single_field_type_error :
    to_body [itemObjField] (Option.some wellFormedItemBody) false
      = .error (.typeError "argument of type NoneType is not iterable") := by
  rfl

/-- C2 (code bug): the body aggregator passes the first flattened body
    field through unmodified (no synthesized composite, `modelFields` is
    `none`) both for a single field explicitly marked `embed=True` — the
    embed flag is read off the pydantic `ModelField`, which has no such
    attribute, so it always tests false — and for two distinct fields that
    share one name, because the pass-through test counts the set of field
    NAMES rather than the fields. -/
theorem c2_body_aggregator_pass_through_bugs :
    get_body_field depEmbed "u" = Option.some ⟨itemEmbedField, Option.none⟩ ∧
    get_body_field depDup "u2" = Option.some ⟨itemDupFieldA, Option.none⟩ ∧
    itemEmbedField.fieldInfo.embed = true ∧
    depDup.flat.body_params.length = 2 := by
  refine ⟨?_, ?_, rfl, ?_⟩
  · simp [get_body_field, Dependant.flat, depEmbed, Dependant.body_params,
      itemEmbedField, ModelField.name, List.dedup]
  · simp [get_body_field, Dependant.flat, depDup, Dependant.body_params,
      itemDupFieldA, itemDupFieldB, ModelField.name, List.dedup]
  · simp [Dependant.flat, depDup, Dependant.body_params]

/-- C6 (code bug): a scalar-sequence parameter is classified to query (or
    header) exactly when its declared default is a `Query`/`Header`
    marker, and a `Path`-marked one does land in `body_params`; but the
    no-marker case does NOT end in the body list — `get_param_field`
    replaces its marker by `Body(...)` and `_add_body_field` then raises
    at registration time. -/
theorem c6_scalar_sequence_classification :
    new_dependant ids_view Option.none false
      = .error (.exception "Param: ids can only be a request body, using Body(...)") ∧
    new_dependant ids_query_view Option.none false
      = .ok (.mk (Option.some ids_query_view) false false Option.none
          [] [idsQueryField] [] [] [] Option.none []) ∧
    new_dependant ids_path_view Option.none false
      = .ok (.mk (Option.some ids_path_view) false false Option.none
          [] [] [] [] [idsPathField] Option.none []) := by
  refine ⟨?_, ?_, ?_⟩ <;>
  simp [new_dependant, process_params, ids_view, ids_query_view, ids_path_view,
    idsParam, idsQueryMarkedParam, idsPathMarkedParam, get_param_field,
    add_param_field, _add_body_field, _add_scalar_field, is_special_request_param,
    idsAnn, is_scalar_field, is_scalar_sequence_field, is_scalar_field_list,
    defaultIsQueryOrHeader, create_model_field, mkMarker, plainFieldInfo,
    SigParam.name, SigParam.default, SigParam.ann, SigParam.annAsCallable,
    ModelField.setFieldInfo, ModelField.fieldInfo, ModelField.name,
    isBodyCls, isParamCls, clsIn, idsQueryField, idsPathField,
    Dependant.appendParam, Dependant.appendBodyParam, inSequenceShapes,
    isBaseModelType, isSeqOrDictType, isSequenceType, ModelField.shape,
    ModelField.type_, ModelField.subFields, FieldInfo.mk.injEq]

/-- C7 (code bug): `_add_body_field` raises exactly when the classified
    body parameter's declared marker IS a `params.Body` instance — the
    agreeing case, `user_id: int = Body(...)` — and silently appends the
    field when the marker is a conflicting non-body location marker, as
    for `item: Item = Path(...)`: the inverse of the documented intent of
    its own error message. -/
theorem c7_body_marker_check_inverted :
    new_dependant body_marker_view Option.none false
      = .error (.exception "Param: user_id can only be a request body, using Body(...)") ∧
    new_dependant path_marker_view Option.none false
      = .ok (.mk (Option.some path_marker_view) false false Option.none
          [] [] [] [] [itemPathMarkedField] Option.none []) := by
  constructor <;>
  simp [new_dependant, process_params, body_marker_view, path_marker_view,
    userIdBodyParam, itemPathMarkedParam, get_param_field,
    add_param_field, _add_body_field, _add_scalar_field, is_special_request_param,
    is_scalar_field, is_scalar_sequence_field, is_scalar_field_list,
    defaultIsQueryOrHeader, create_model_field, mkMarker, plainFieldInfo,
    SigParam.name, SigParam.default, SigParam.ann, SigParam.annAsCallable,
    ModelField.setFieldInfo, ModelField.fieldInfo, ModelField.name,
    isBodyCls, isParamCls, clsIn, itemPathMarkedField,
    Dependant.appendParam, Dependant.appendBodyParam, inSequenceShapes,
    isBaseModelType, isSeqOrDictType, isSequenceType, ModelField.shape,
    ModelField.type_, ModelField.subFields]

/-! ## Non-body resolution: specification-level per-field decomposition -/

/-- Boolean success test for an `Except`. -/
def exceptIsOk {ε α : Type} : Except ε α → Bool
  | .ok _ => true
  | .error _ => false

/-- The location string of a field's declared location
    (`field_info.in_.value`). -/
def spec_loc_str (f : ModelField) : String :=
  match f.fieldInfo.in_ with
  | Option.some p => p.value
  | Option.none => ""

/-- The raw value one `to_args` iteration reads for a field, before the
    missing/default/validate logic: the full value list (with default
    fallback) for scalar-sequence fields of a `QueryDict`, else a single
    lookup of the alias. -/
def spec_nonbody_raw_value (pv : ParamSource) (f : ModelField) : PyValue :=
  if is_scalar_sequence_field f && pv.isQueryDict then
    pyOr (.listV (pv.getlist f.alias_)) f.default
  else pv.get f.alias_

/-- The validation errors one field contributes at its `(location, alias)`
    path, independently of every other field. -/
def spec_validate_errors (f : ModelField) (v : PyValue) : List ErrorWrapper :=
  match runChecker f.checker v with
  | .ok _ => []
  | .error ks => ks.map (fun k => ⟨k, [.s (spec_loc_str f), .s f.alias_]⟩)

/-- The complete error contribution of one field during non-body
    resolution, mirroring the spec's reading of a single iteration:
    a missing error when a required field's raw value is absent, validation
    of the default when an optional one's is, validation of the raw value
    otherwise. -/
def spec_nonbody_field_errors (pv : ParamSource) (f : ModelField) :
    List ErrorWrapper :=
  let value := spec_nonbody_raw_value pv f
  if value.isNoneV then
    if f.required then [⟨.missing, [.s (spec_loc_str f), .s f.alias_]⟩]
    else spec_validate_errors f f.default
  else spec_validate_errors f value

theorem validate_step_spec (f : ModelField) (ptype : ParamTypes) (v : PyValue)
    (values : PyDict) (errors : List ErrorWrapper)
    (hin : f.fieldInfo.in_ = Option.some ptype) :
    to_args_validate_step f ptype v values errors
      = ((match runChecker f.checker v with
          | .ok w => dictSet values f.name w
          | .error _ => values),
         errors ++ spec_validate_errors f v) := by
  have hloc : spec_loc_str f = ptype.value := by simp [spec_loc_str, hin]
  simp only [to_args_validate_step, ModelField.validate, spec_validate_errors, hloc]
  match h : runChecker f.checker v with
  | .ok w => simp
  | .error [k] => simp
  | .error [] => simp
  | .error (k1 :: k2 :: ks) => simp

theorem to_args_loop_errors (fields : List ModelField) (pv : ParamSource)
    (values : PyDict) (errors : List ErrorWrapper)
    (hparam : ∀ f ∈ fields, isParamCls f.fieldInfo.cls = true)
    (hin : ∀ f ∈ fields, (f.fieldInfo.in_).isSome = true) :
    ∃ vals, to_args_loop fields pv values errors
      = .ok (vals, errors ++ (fields.map (spec_nonbody_field_errors pv)).flatten) := by
  induction fields generalizing values errors with
  | nil => exact ⟨values, by simp [to_args_loop]⟩
  | cons f rest ih =>
    have hp : isParamCls f.fieldInfo.cls = true := hparam f (List.mem_cons_self f rest)
    have hi : (f.fieldInfo.in_).isSome = true := hin f (List.mem_cons_self f rest)
    have hparam2 : ∀ g ∈ rest, isParamCls g.fieldInfo.cls = true :=
      fun g hg => hparam g (List.mem_cons_of_mem f hg)
    have hin2 : ∀ g ∈ rest, (g.fieldInfo.in_).isSome = true :=
      fun g hg => hin g (List.mem_cons_of_mem f hg)
    obtain ⟨ptype, hpt⟩ := Option.isSome_iff_exists.mp hi
    have hloc : spec_loc_str f = ptype.value := by simp [spec_loc_str, hpt]
    rw [to_args_loop]
    rw [show (if is_scalar_sequence_field f && ParamSource.isQueryDict pv then
        pyOr (.listV (pv.getlist f.alias_)) f.default
      else pv.get f.alias_) = spec_nonbody_raw_value pv f from rfl]
    simp only [hp, Bool.not_true, hpt]
    by_cases hnone : (spec_nonbody_raw_value pv f).isNoneV = true
    · by_cases hreq : f.required = true
      · simp only [hnone, hreq, if_true]
        obtain ⟨vals, hv⟩ := ih values
          (errors ++ [⟨.missing, [.s ptype.value, .s f.alias_]⟩]) hparam2 hin2
        refine ⟨vals, ?_⟩
        rw [hv]
        simp [spec_nonbody_field_errors, hnone, hreq, hloc]
      · simp only [hnone, hreq, if_true, Bool.false_eq_true, if_false]
        rw [validate_step_spec f ptype f.default values errors hpt]
        obtain ⟨vals, hv⟩ := ih _ _ hparam2 hin2
        refine ⟨vals, ?_⟩
        rw [hv]
        simp [spec_nonbody_field_errors, hnone, hreq]
    · have hnone2 : (spec_nonbody_raw_value pv f).isNoneV = false := by
        simpa using hnone
      simp only [hnone2, Bool.false_eq_true, if_false]
      rw [validate_step_spec f ptype _ values errors hpt]
      obtain ⟨vals, hv⟩ := ih _ _ hparam2 hin2
      refine ⟨vals, ?_⟩
      rw [hv]
      simp [spec_nonbody_field_errors, hnone2]

/-- C4: in non-body resolution the accumulated error list is the
    concatenation, over the declared fields in order, of each field's own
    independent error contribution — so a failure never short-circuits the
    lookup and validation of the remaining fields — and a required field
    whose raw source value is absent contributes exactly the one missing
    error tagged with its declared location and wire alias. -/
theorem c4_required_missing_accumulation (fields : List ModelField)
    (pv : ParamSource)
    (hparam : ∀ f ∈ fields, isParamCls f.fieldInfo.cls = true)
    (hin : ∀ f ∈ fields, (f.fieldInfo.in_).isSome = true) :
    (∃ vals, to_args fields pv
        = .ok (vals, (fields.map (spec_nonbody_field_errors pv)).flatten)) ∧
    (∀ f ∈ fields, f.required = true →
       (spec_nonbody_raw_value pv f).isNoneV = true →
       spec_nonbody_field_errors pv f
         = [⟨.missing, [.s (spec_loc_str f), .s f.alias_]⟩]) := by
  constructor
  · obtain ⟨vals, hv⟩ := to_args_loop_errors fields pv [] [] hparam hin
    exact ⟨vals, by simpa [to_args] using hv⟩
  · intro f _ hreq hnone
    simp [spec_nonbody_field_errors, hnone, hreq]

/-- A required query field whose alias `p` is absent from the source. -/
def c4_f1 : ModelField :=
  .mk "page" "p" true PyValue.none .singleton .intT [] (mkMarker .query Option.none)
    intChecker

/-- A required query field present with a valid value. -/
def c4_f2 : ModelField :=
  .mk "name" "name" true PyValue.none .singleton .strT [] (mkMarker .query Option.none)
    .strC

/-- A required query field present with a value that fails int coercion. -/
def c4_f3 : ModelField :=
  .mk "limit" "limit" true PyValue.none .singleton .intT []
    (mkMarker .query Option.none) intChecker

/-- A raw source missing `p` and carrying an invalid `limit`. -/
def c4_source : ParamSource :=
  .pyDict [("name", .str "bea"), ("limit", .str "abc")]

/-- Witness for C4 at a concrete request: the missing `page` field is
    reported once at `("query", "p")`, and resolution still validated the
    later `limit` field, whose coercion error is accumulated after it. -/
theorem c4_required_missing_accumulation_witness :
    ((∀ f ∈ [c4_f1, c4_f2, c4_f3], isParamCls f.fieldInfo.cls = true) ∧
     (∀ f ∈ [c4_f1, c4_f2, c4_f3], (f.fieldInfo.in_).isSome = true)) ∧
    ((∃ vals, to_args [c4_f1, c4_f2, c4_f3] c4_source
        = .ok (vals, ([c4_f1, c4_f2, c4_f3].map
            (spec_nonbody_field_errors c4_source)).flatten)) ∧
     (∀ f ∈ [c4_f1, c4_f2, c4_f3], f.required = true →
        (spec_nonbody_raw_value c4_source f).isNoneV = true →
        spec_nonbody_field_errors c4_source f
          = [⟨.missing, [.s (spec_loc_str f), .s f.alias_]⟩])) ∧
    ([c4_f1, c4_f2, c4_f3].map (spec_nonbody_field_errors c4_source)).flatten
      = [⟨.missing, [.s "query", .s "p"]⟩,
         ⟨.valueError "value is not a valid integer", [.s "query", .s "limit"]⟩] := by
  refine ⟨⟨by decide, by decide⟩,
    c4_required_missing_accumulation [c4_f1, c4_f2, c4_f3] c4_source
      (by decide) (by decide), by decide⟩

/-! ## Query-only scalar resolution: the merged value map -/

theorem isSequenceType_false_of_not_seqOrDict (t : TypeTag)
    (h : isSeqOrDictType t = false) : isSequenceType t = false := by
  cases t <;> simp_all [isSeqOrDictType, isSequenceType]

theorem scalar_field_not_sequence (f : ModelField)
    (h : is_scalar_field f = true) : is_scalar_sequence_field f = false := by
  cases f with
  | mk n a r dflt s t sf fi c =>
    rw [is_scalar_field] at h
    split at h
    · exact absurd h (by simp)
    · rename_i hcond
      simp only [Bool.or_eq_true, not_or, Bool.not_eq_true, bne_eq_false_iff_eq] at hcond
      obtain ⟨⟨⟨hs, hbm⟩, hsd⟩, _⟩ := hcond
      rw [is_scalar_sequence_field]
      simp only [ModelField.shape, ModelField.type_, ModelField.subFields]
      have hs2 : s = Shape.singleton := by
        by_cases hx : s = Shape.singleton
        · exact hx
        · exact absurd (by simpa [bne] using hx) (by simp [hs])
      rw [hs2]
      simp [inSequenceShapes, isSequenceType_false_of_not_seqOrDict t hsd]

theorem dictSet_append (m : PyDict) (k : String) (v : PyValue)
    (h : m.any (fun p => p.1 == k) = false) :
    dictSet m k v = m ++ [(k, v)] := by
  simp [dictSet, h]

/-- The coerced, validated value a query field resolves to when its alias
    is present and valid. -/
def resolved_query_value (m : MultiMap) (f : ModelField) : PyValue :=
  match runChecker f.checker (multiGetLast m f.alias_) with
  | .ok w => w
  | .error _ => PyValue.none

theorem to_args_loop_values (fields : List ModelField) (m : MultiMap)
    (values : PyDict) (errors : List ErrorWrapper)
    (hq : ∀ f ∈ fields, f.fieldInfo.cls = FIClass.query ∧
        f.fieldInfo.in_ = Option.some ParamTypes.query)
    (hscalar : ∀ f ∈ fields, is_scalar_field f = true)
    (hok : ∀ f ∈ fields, (multiGetLast m f.alias_).isNoneV = false ∧
        exceptIsOk (runChecker f.checker (multiGetLast m f.alias_)) = true)
    (hfresh : ∀ f ∈ fields, values.any (fun p => p.1 == f.name) = false)
    (hnodup : (fields.map ModelField.name).Nodup) :
    to_args_loop fields (.queryDict m) values errors
      = .ok (values ++ fields.map (fun f => (f.name, resolved_query_value m f)),
             errors) := by
  induction fields generalizing values with
  | nil => simp [to_args_loop]
  | cons f rest ih =>
    obtain ⟨hqc, hqin⟩ := hq f (List.mem_cons_self f rest)
    have hsc := hscalar f (List.mem_cons_self f rest)
    obtain ⟨hnn, hco⟩ := hok f (List.mem_cons_self f rest)
    have hfr := hfresh f (List.mem_cons_self f rest)
    obtain ⟨w, hw⟩ : ∃ w, runChecker f.checker (multiGetLast m f.alias_) = .ok w := by
      cases hrc : runChecker f.checker (multiGetLast m f.alias_) with
      | ok w => exact ⟨w, rfl⟩
      | error e => rw [hrc] at hco; exact absurd hco (by simp [exceptIsOk])
    rw [to_args_loop]
    rw [scalar_field_not_sequence f hsc]
    have hvget : ParamSource.get (.queryDict m) f.alias_ = multiGetLast m f.alias_ := rfl
    simp only [Bool.false_and, Bool.not_true, if_false, hvget, hqc, hqin]
    have hpc : isParamCls FIClass.query = true := rfl
    simp only [hpc, Bool.not_true, Bool.false_eq_true, if_false, hnn]
    rw [validate_step_spec f ParamTypes.query (multiGetLast m f.alias_) values errors hqin]
    simp only [hw]
    rw [dictSet_append values f.name w hfr]
    have hfresh2 : ∀ g ∈ rest,
        ((values ++ [(f.name, w)]).any (fun p => p.1 == g.name)) = false := by
      intro g hg
      have h1 := hfresh g (List.mem_cons_of_mem f hg)
      have hne : f.name ≠ g.name := by
        intro hEq
        have : f.name ∈ rest.map ModelField.name :=
          hEq ▸ List.mem_map_of_mem ModelField.name hg
        exact (List.nodup_cons.mp hnodup).1 this
      simp [List.any_append, h1, hne]
    have hrest := ih
      (values ++ [(f.name, w)])
      (fun g hg => hq g (List.mem_cons_of_mem f hg))
      (fun g hg => hscalar g (List.mem_cons_of_mem f hg))
      (fun g hg => hok g (List.mem_cons_of_mem f hg))
      hfresh2
      ((List.nodup_cons.mp hnodup).2)
    rw [show spec_validate_errors f (multiGetLast m f.alias_) = [] by
      simp [spec_validate_errors, hw]]
    rw [List.append_nil]
    rw [hrest]
    have hres : resolved_query_value m f = w := by simp [resolved_query_value, hw]
    simp [hres, List.append_assoc]

/-- C5: for a handler with only query-sourced scalar fields, resolving a
    request in which every declared field is present and valid yields no
    errors and one merged value map holding exactly one entry per declared
    field, in declaration order, keyed by the field's NAME (not its wire
    alias) and carrying the coerced, validated value. -/
theorem c5_query_scalar_value_map (fields : List ModelField) (m : MultiMap)
    (hq : ∀ f ∈ fields, f.fieldInfo.cls = FIClass.query ∧
        f.fieldInfo.in_ = Option.some ParamTypes.query)
    (hscalar : ∀ f ∈ fields, is_scalar_field f = true)
    (hnodup : (fields.map ModelField.name).Nodup)
    (hok : ∀ f ∈ fields, (multiGetLast m f.alias_).isNoneV = false ∧
        exceptIsOk (runChecker f.checker (multiGetLast m f.alias_)) = true) :
    to_args fields (.queryDict m)
      = .ok (fields.map (fun f => (f.name, resolved_query_value m f)), []) := by
  have h := to_args_loop_values fields m [] [] hq hscalar hok
    (by intro f _; rfl) hnodup
  simpa [to_args] using h

/-- `name: str` from the query string. -/
def c5_nameField : ModelField :=
  .mk "name" "name" true PyValue.none .singleton .strT []
    (mkMarker .query Option.none) .strC

/-- `page: int` whose wire alias `pg` differs from its name. -/
def c5_pageField : ModelField :=
  .mk "page" "pg" true PyValue.none .singleton .intT []
    (mkMarker .query Option.none) intChecker

/-- A query multi-map carrying `name=bea` and `pg=13`. -/
def c5_query : MultiMap :=
  [("name", [.str "bea"]), ("pg", [.str "13"])]

/-- Witness for C5 at a concrete request: both fields resolve, the merged
    map has exactly one entry per field keyed by name (`page`, not the
    alias `pg`), and the string `"13"` was coerced to the int `13`. -/
theorem c5_query_scalar_value_map_witness :
    ((∀ f ∈ [c5_nameField, c5_pageField], f.fieldInfo.cls = FIClass.query ∧
        f.fieldInfo.in_ = Option.some ParamTypes.query) ∧
     (∀ f ∈ [c5_nameField, c5_pageField], is_scalar_field f = true) ∧
     ([c5_nameField, c5_pageField].map ModelField.name).Nodup ∧
     (∀ f ∈ [c5_nameField, c5_pageField],
        (multiGetLast c5_query f.alias_).isNoneV = false ∧
        exceptIsOk (runChecker f.checker (multiGetLast c5_query f.alias_)) = true)) ∧
    to_args [c5_nameField, c5_pageField] (.queryDict c5_query)
      = .ok ([("name", .str "bea"), ("page", .int 13)], []) := by
  refine ⟨⟨by decide, by decide, by decide, by decide⟩, ?_⟩
  have h := c5_query_scalar_value_map [c5_nameField, c5_pageField] c5_query
    (by decide) (by decide) (by decide) (by decide)
  rw [h]
  rfl

theorem solve_call_type_error :
    call_solve_dependencies solve_dependencies_stub
      = .error (.typeError "solve_dependencies got an unexpected keyword argument") := by
  rfl

/-- C1: for every registered route and every request, the wrapped view
    never returns a successful response: whenever the body stage completes,
    the call `dependant.solve_dependencies(request=..., body=...,
    path_kwargs=..., is_body_form=...)` raises `TypeError` — the stub's
    signature accepts only `request` and `path_kwargs` — before the handler
    is invoked (the result does not depend on the handler at all), so no
    request is ever bound end-to-end. -/
theorem c1_wrapper_solve_call_type_error (route : ViewRouteData)
    (handler : PyDict → Except PyErr HandlerResult)
    (view_request : Request) (path_kwargs : PyDict) :
    (∀ r, inner_wrapper route handler view_request path_kwargs ≠ .ok r) ∧
    (∀ b, inner_body_stage route view_request = .ok b →
       inner_wrapper route handler view_request path_kwargs
         = .error (.typeError "solve_dependencies got an unexpected keyword argument")) ∧
    (∀ handler2 : PyDict → Except PyErr HandlerResult,
       inner_wrapper route handler view_request path_kwargs
         = inner_wrapper route handler2 view_request path_kwargs) := by
  cases hb : inner_body_stage route view_request with
  | ok b =>
    have hmain : ∀ h2 : PyDict → Except PyErr HandlerResult,
        inner_wrapper route h2 view_request path_kwargs
        = .error (.typeError "solve_dependencies got an unexpected keyword argument") := by
      intro h2
      simp [inner_wrapper, hb, solve_call_type_error, Bind.bind, Except.bind,
        pure, Except.pure]
    refine ⟨?_, ?_, ?_⟩
    · intro r hr
      rw [hmain handler] at hr
      exact absurd hr (by simp)
    · intro b2 _
      exact hmain handler
    · intro handler2
      rw [hmain handler, hmain handler2]
  | error e =>
    refine ⟨?_, ?_, ?_⟩
    · intro r hr
      cases e <;> simp [inner_wrapper, hb, Bind.bind, Except.bind] at hr
    · intro b2 hb2
      exact absurd hb2 (by simp)
    · intro handler2
      cases e <;> simp [inner_wrapper, hb, Bind.bind, Except.bind]

/-- C8: a request whose declared (non-form) body fails JSON decoding is
    rejected with a `RequestValidationError` carrying exactly one error
    that wraps the `json.JSONDecodeError` itself at location
    `("body", pos)` — the parse-failure offset — before any field-level
    validation; the error kind is not the field-level missing kind and the
    exception is not the generic `APIException` server error. -/
theorem c8_malformed_json_body_error (route : ViewRouteData)
    (handler : PyDict → Except PyErr HandlerResult)
    (view_request : Request) (path_kwargs : PyDict)
    (msg : String) (pos : Nat) (doc : String)
    (hbf : (route.body_field).isSome = true)
    (hform : route.is_body_form = false)
    (hne : view_request.bodyIsEmpty = false)
    (hjs : view_request.jsonLoadsResult = .decodeError msg pos doc) :
    inner_wrapper route handler view_request path_kwargs
      = .error (.requestValidation
          [⟨.jsonDecode msg pos doc, [.s "body", .n pos]⟩]
          (Option.some (.str doc))) ∧
    ErrKind.jsonDecode msg pos doc ≠ ErrKind.missing ∧
    (∀ st dt, inner_wrapper route handler view_request path_kwargs
       ≠ .error (.apiException st dt)) ∧
    (∀ errs bd, inner_wrapper route handler view_request path_kwargs
          = .error (.requestValidation errs bd) →
       ∀ w ∈ errs, w.exc ≠ ErrKind.missing) := by
  have hstage : inner_body_stage route view_request
      = .error (.jsonDecodeError msg pos doc) := by
    simp [inner_body_stage, hbf, hform, BodyConverter_to_json, hne, hjs]
  have hmain : inner_wrapper route handler view_request path_kwargs
      = .error (.requestValidation
          [⟨.jsonDecode msg pos doc, [.s "body", .n pos]⟩]
          (Option.some (.str doc))) := by
    simp [inner_wrapper, hstage, Bind.bind, Except.bind]
  refine ⟨hmain, by simp, ?_, ?_⟩
  · intro st dt h
    rw [hmain] at h
    simp at h
  · intro errs bd h w hw
    rw [hmain] at h
    have herrs : errs = [⟨.jsonDecode msg pos doc, [.s "body", .n pos]⟩] := by
      simp at h
      exact h.1.symm
    rw [herrs] at hw
    have hwk : w = ⟨.jsonDecode msg pos doc, [.s "body", .n pos]⟩ := by
      simpa using hw
    rw [hwk]
    simp

/-- C10: registering any handler with a declared response model raises
    `AttributeError` at registration time — `ViewRoute.__init__` looks up
    `DependantUtils.create_cloned_field`, which is defined nowhere in the
    codebase — so no such route constructs; and every route that does
    register has no response field, making the schema-pruning branch of
    `serialize_response` unreachable (content passes through untouched). -/
theorem c10_response_model_attribute_error (cfg : RouteConfig) :
    (cfg.response_model.isSome = true →
      (∀ r, viewroute_init cfg ≠ .ok r) ∧
      (∀ s1, viewroute_init_stage1 cfg = .ok s1 →
        viewroute_init cfg = .error (.attributeError "create_cloned_field"))) ∧
    (∀ r, viewroute_init cfg = .ok r →
      r.response_field = Option.none ∧
      (∀ content i e ba, serialize_response r.response_field content i e ba
         = .ok content)) := by
  have hattr : py_class_getattr dependant_utils_attrs "create_cloned_field"
      = .error (.attributeError "create_cloned_field") := by rfl
  cases hs1 : viewroute_init_stage1 cfg with
  | error e =>
    have hinit : viewroute_init cfg = .error e := by
      simp [viewroute_init, hs1, Bind.bind, Except.bind]
    refine ⟨fun _ => ⟨?_, ?_⟩, ?_⟩
    · intro r hr
      rw [hinit] at hr
      exact absurd hr (by simp)
    · intro s1 hss
      exact absurd hss (by simp)
    · intro r hr
      rw [hinit] at hr
      exact absurd hr (by simp)
  | ok s1 =>
    cases hrm : cfg.response_model with
    | some rm =>
      have hinit : viewroute_init cfg = .error (.attributeError "create_cloned_field") := by
        simp [viewroute_init, hs1, hrm, hattr, Bind.bind, Except.bind]
      refine ⟨fun _ => ⟨?_, ?_⟩, ?_⟩
      · intro r hr
        rw [hinit] at hr
        exact absurd hr (by simp)
      · intro _ _
        exact hinit
      · intro r hr
        rw [hinit] at hr
        exact absurd hr (by simp)
    | none =>
      have hinit : viewroute_init cfg = .ok
          { dependant := s1.1, body_field := s1.2.1, is_body_form := s1.2.2
            response_field := Option.none
            status_code := cfg.status_code
            response_model_include := cfg.response_model_include
            response_model_exclude := cfg.response_model_exclude
            response_model_by_alias := cfg.response_model_by_alias } := by
        simp [viewroute_init, hs1, hrm, Bind.bind, Except.bind, pure, Except.pure]
      refine ⟨fun hsome => absurd hsome (by simp), ?_⟩
      intro r hr
      rw [hinit] at hr
      simp only [Except.ok.injEq] at hr
      rw [← hr]
      exact ⟨rfl, fun content i e ba => rfl⟩

def c1_route : ViewRouteData :=
  { dependant := .mk Option.none false false Option.none [] [] [] [] []
      Option.none []
    body_field := Option.none
    is_body_form := false
    response_field := Option.none
    status_code := 200
    response_model_include := Option.none
    response_model_exclude := Option.none
    response_model_by_alias := true }

def c1_request : Request :=
  { bodyIsEmpty := true, jsonLoadsResult := .ok PyValue.none
    postData := [], filesData := [] }

def c1_handler : PyDict → Except PyErr HandlerResult :=
  fun _ => .ok (.value PyValue.none)

/-- Witness for C1 at a concrete registered route and request. -/
theorem c1_wrapper_solve_call_type_error_witness :
    inner_body_stage c1_route c1_request = .ok Option.none ∧
    inner_wrapper c1_route c1_handler c1_request []
      = .error (.typeError "solve_dependencies got an unexpected keyword argument") :=
  ⟨rfl, (c1_wrapper_solve_call_type_error c1_route c1_handler c1_request []).2.1 Option.none rfl⟩

def c8_route : ViewRouteData :=
  { dependant := .mk Option.none false false Option.none [] [] [] [] []
      Option.none []
    body_field := Option.some ⟨itemObjField, Option.none⟩
    is_body_form := false
    response_field := Option.none
    status_code := 200
    response_model_include := Option.none
    response_model_exclude := Option.none
    response_model_by_alias := true }

def c8_request : Request :=
  { bodyIsEmpty := false
    jsonLoadsResult := .decodeError "Expecting value" 0 "notjson"
    postData := [], filesData := [] }

/-- Witness for C8 at a concrete malformed-JSON request. -/
theorem c8_malformed_json_body_error_witness :
    ((c8_route.body_field).isSome = true ∧ c8_route.is_body_form = false ∧
     c8_request.bodyIsEmpty = false ∧
     c8_request.jsonLoadsResult = .decodeError "Expecting value" 0 "notjson") ∧
    inner_wrapper c8_route c1_handler c8_request []
      = .error (.requestValidation
          [⟨.jsonDecode "Expecting value" 0 "notjson", [.s "body", .n 0]⟩]
          (Option.some (.str "notjson"))) :=
  ⟨⟨rfl, rfl, rfl, rfl⟩,
    (c8_malformed_json_body_error c8_route c1_handler c8_request [] "Expecting value" 0 "notjson"
      rfl rfl rfl rfl).1⟩

def c10_request_param : SigParam := .mk "request" DefaultVal.empty anyAnn Option.none

def c10_view : Callable := .mk "resp_view" [c10_request_param]

def c10_cfg : RouteConfig :=
  { view_func := c10_view, dependencies := []
    response_model := Option.some anyAnn
    status_code := 200, response_model_include := Option.none
    response_model_exclude := Option.none, response_model_by_alias := true }

def c10_dependant : Dependant :=
  .mk (Option.some c10_view) false true Option.none [] [] [] [] []
    (Option.some "request") []

/-- `new_dependant` on the witness view function: only the request
    parameter, so an empty dependency node recording it. -/
theorem c10_new_dependant_eval :
    new_dependant c10_view Option.none true = .ok c10_dependant := by
  simp [new_dependant, process_params, c10_view, c10_request_param,
    is_special_request_param, SigParam.name, SigParam.default,
    Dependant.setRequestParamName, c10_dependant]

/-- The witness route has no body fields, hence no body field is
    synthesized. -/
theorem c10_body_field_eval :
    get_body_field c10_dependant "resp_view" = Option.none := by
  simp [get_body_field, Dependant.flat, c10_dependant, Dependant.body_params]

/-- Stage 1 of the witness registration completes successfully. -/
theorem c10_stage1_eval :
    viewroute_init_stage1 c10_cfg = .ok (c10_dependant, Option.none, false) := by
  have hv : c10_cfg.view_func = c10_view := rfl
  have hd : c10_cfg.dependencies = [] := rfl
  have hr : c10_view.reprStr = "resp_view" := rfl
  unfold viewroute_init_stage1
  rw [hv, hd, c10_new_dependant_eval, hr]
  rw [List.reverse_nil]
  show (do
    let dependant ← ([] : List (Option Callable)).foldlM (fun d dep => do
      let sub ← new_paramless_sub_dependant dep
      pure (d.prependDependency sub)) c10_dependant
    let body_field := get_body_field dependant "resp_view"
    let is_body_form := match body_field with
      | Option.some bf => bf.field.fieldInfo.cls == FIClass.form
      | Option.none => false
    pure (dependant, body_field, is_body_form) :
      Except PyErr (Dependant × Option BodyFieldOut × Bool))
      = .ok (c10_dependant, Option.none, false)
  rw [List.foldlM_nil]
  show (do
    let body_field := get_body_field c10_dependant "resp_view"
    let is_body_form := match body_field with
      | Option.some bf => bf.field.fieldInfo.cls == FIClass.form
      | Option.none => false
    pure (c10_dependant, body_field, is_body_form) :
      Except PyErr (Dependant × Option BodyFieldOut × Bool))
      = .ok (c10_dependant, Option.none, false)
  rw [c10_body_field_eval]
  rfl

/-- Witness for C10 at a concrete registration with a response model. -/
theorem c10_response_model_attribute_error_witness :
    (c10_cfg.response_model).isSome = true ∧
    viewroute_init_stage1 c10_cfg = .ok (c10_dependant, Option.none, false) ∧
    viewroute_init c10_cfg = .error (.attributeError "create_cloned_field") :=
  ⟨rfl, c10_stage1_eval,
    ((c10_response_model_attribute_error c10_cfg).1 rfl).2
      (c10_dependant, Option.none, false) c10_stage1_eval⟩
